import Mathlib

/-!
Verification development for the sugester search relevance engine.

The JavaScript sources are shallowly embedded:
- regexes used by the intent classifier and parameter extractor are encoded
  with a small explicit backtracking matcher over ASCII character classes
  (JS regex `\w`, `\d`, `\s`, `[A-Z]` with the `i` flag are all ASCII-only,
  which is what the encodings below implement; case folding is ASCII);
- the Elasticsearch transport is an oracle function from requests to results,
  with thrown exceptions modelled as `Except.error`;
- emitted query bodies are modelled by a JSON-like inductive `J`, with
  embedded painless scripts represented by symbolic `J.script` tags whose
  per-document numeric semantics is given separately for the ranking claims.
-/

/-- ASCII letter, the character class `[A-Z]` under the JS `i` flag. -/
def isLetterChar (c : Char) : Bool :=
  (65 ≤ c.toNat && c.toNat ≤ 90) || (97 ≤ c.toNat && c.toNat ≤ 122)

/-- ASCII digit, the JS regex class `\d`. -/
def isDigitChar (c : Char) : Bool :=
  48 ≤ c.toNat && c.toNat ≤ 57

/-- JS regex class `\w` = `[A-Za-z0-9_]`. -/
def isWordChar (c : Char) : Bool :=
  isLetterChar c || isDigitChar c || c.toNat = 95

/-- Alphanumeric, `[A-Z0-9]` under the `i` flag. -/
def isAlnumChar (c : Char) : Bool :=
  isLetterChar c || isDigitChar c

/-- Whitespace as used by JS `\s` / `String.prototype.trim` (ASCII part:
space and the control characters TAB..CR). -/
def isWsChar (c : Char) : Bool :=
  c.toNat = 32 || (9 ≤ c.toNat && c.toNat ≤ 13)

/-- ASCII lowercase of a character (JS `i`-flag canonicalization on ASCII). -/
def lowCh (c : Char) : Char :=
  if 65 ≤ c.toNat ∧ c.toNat ≤ 90 then Char.ofNat (c.toNat + 32) else c

/-- ASCII uppercase of a character. -/
def upCh (c : Char) : Char :=
  if 97 ≤ c.toNat ∧ c.toNat ≤ 122 then Char.ofNat (c.toNat - 32) else c

/-- Case-insensitive character test against a fixed pattern character. -/
def chEq (a : Char) : Char → Bool := fun c => lowCh c == lowCh a

/-- Case-insensitive membership in a character class given as a string of
its lowercase members. -/
def inStr (s : String) : Char → Bool := fun c => s.data.contains (lowCh c)

/-- ASCII-lowercased string (models `String.prototype.toLowerCase` on the
ASCII inputs the claims exercise). -/
def lowerStr (s : String) : String := String.mk (s.data.map lowCh)

/-- ASCII-uppercased string. -/
def upperStr (s : String) : String := String.mk (s.data.map upCh)

/-- Elements of an encoded regex: a mandatory character class, an optional
character class (`X?`), a greedy star over a class (`X*`), the word
boundary `\b`, and the suffix alternative `(?:\b|$)`. -/
inductive Pat where
  | one (f : Char → Bool)
  | opt (f : Char → Bool)
  | many (f : Char → Bool)
  | bnd
  | bndEos

/-- Word-boundary test between the previous character (if any) and the
upcoming text. -/
def bndOk (prev : Option Char) (rest : List Char) : Bool :=
  (match prev with | some c => isWordChar c | none => false)
    != (match rest with | c :: _ => isWordChar c | [] => false)

/-- Fuelled worker for `mends`; every recursive call strictly decreases
`2 * rest.length + pats.length`, so the fuel used in `mends` suffices. -/
def mendsF : Nat → Option Char → List Char → List Pat → List (Option Char × List Char)
  | 0, _, _, _ => []
  | _ + 1, prev, rest, [] => [(prev, rest)]
  | _ + 1, _, [], .one _ :: _ => []
  | fuel + 1, _, c :: rs, .one f :: ps => if f c then mendsF fuel (some c) rs ps else []
  | fuel + 1, prev, [], .opt _ :: ps => mendsF fuel prev [] ps
  | fuel + 1, prev, c :: rs, .opt f :: ps =>
      (if f c then mendsF fuel (some c) rs ps else []) ++ mendsF fuel prev (c :: rs) ps
  | fuel + 1, prev, [], .many _ :: ps => mendsF fuel prev [] ps
  | fuel + 1, prev, c :: rs, .many f :: ps =>
      (if f c then mendsF fuel (some c) rs (.many f :: ps) else []) ++ mendsF fuel prev (c :: rs) ps
  | fuel + 1, prev, rest, .bnd :: ps => if bndOk prev rest then mendsF fuel prev rest ps else []
  | fuel + 1, prev, rest, .bndEos :: ps =>
      if bndOk prev rest || rest.isEmpty then mendsF fuel prev rest ps else []

/-- All ways a pattern element list can match a prefix of `rest`, in the JS
backtracking order (greedy first); each result is the state after the match:
last consumed character and remaining suffix.  The head of the returned list
is the match JS would produce. -/
def mends (prev : Option Char) (rest : List Char) (pats : List Pat) : List (Option Char × List Char) :=
  mendsF (2 * rest.length + pats.length + 1) prev rest pats

/-- One alternative of a regex alternation; `anchored` encodes a leading `^`. -/
structure Alt where
  anchored : Bool := false
  pats : List Pat

/-- Try the alternatives in order at the current position (JS alternation
order); `prev = none` exactly at the start of the subject, which is where
anchored alternatives are allowed.  Returns the remaining suffix after the
first successful alternative's first (greedy) match. -/
def altFirst (prev : Option Char) (rest : List Char) : List Alt → Option (List Char)
  | [] => none
  | a :: as =>
    if a.anchored && prev.isSome then altFirst prev rest as
    else
      match mends prev rest a.pats with
      | (_, rem) :: _ => some rem
      | [] => altFirst prev rest as

/-- Leftmost match of an alternation: returns `(before, matched, after)`. -/
def findMatch (alts : List Alt) : Option Char → List Char → Option (List Char × List Char × List Char)
  | prev, cs =>
    match altFirst prev cs alts with
    | some rem => some ([], cs.take (cs.length - rem.length), rem)
    | none =>
      match cs with
      | [] => none
      | c :: rest =>
        (findMatch alts (some c) rest).map (fun r => (c :: r.1, r.2.1, r.2.2))

/-- JS `regex.test(s)`. -/
def rtest (alts : List Alt) (s : String) : Bool :=
  (findMatch alts none s.data).isSome

/-- JS `s.replace(regex, repl)` for a non-global regex (first match only). -/
def replaceFirst (alts : List Alt) (repl : List Char) (s : String) : String :=
  match findMatch alts none s.data with
  | some (b, _, a) => String.mk (b ++ repl ++ a)
  | none => s

/-- Fuelled worker for global replacement. -/
def replaceAllAux (alts : List Alt) (repl : List Char) : Nat → Option Char → List Char → List Char
  | 0, _, cs => cs
  | fuel + 1, prev, cs =>
    match findMatch alts prev cs with
    | none => cs
    | some (b, m, a) =>
      let prevNext := match (b ++ m).getLast? with | some c => some c | none => prev
      b ++ repl ++ replaceAllAux alts repl fuel prevNext a

/-- JS `s.replace(regex, repl)` for a global (`g`) regex.  The fuel
`s.length + 1` is enough because every pattern used consumes at least one
character per match. -/
def replaceAll (alts : List Alt) (repl : List Char) (s : String) : String :=
  String.mk (replaceAllAux alts repl (s.data.length + 1) none s.data)

/-- JS `String.prototype.trim` (ASCII whitespace). -/
def jsTrimChars (cs : List Char) : List Char :=
  ((cs.dropWhile isWsChar).reverse.dropWhile isWsChar).reverse

/-- JS `String.prototype.trim` on strings. -/
def jsTrim (s : String) : String := String.mk (jsTrimChars s.data)

/-- Split a character list at runs of whitespace, keeping the (possibly
empty) pieces before the first and after the last run, like JS
`s.split(/\s+/)`.  `acc` holds the reversed current piece, `inWs` tells
whether the scan is inside a whitespace run whose left piece was emitted. -/
def splitWsGo : List Char → List Char → Bool → List (List Char)
  | [], acc, _ => [acc.reverse]
  | c :: rest, acc, inWs =>
    if isWsChar c then
      if inWs then splitWsGo rest acc true
      else acc.reverse :: splitWsGo rest [] true
    else splitWsGo rest (c :: acc) false

/-- JS `s.split(/\s+/)`. -/
def splitWs (s : String) : List String :=
  (splitWsGo s.data [] false).map String.mk

/-- Case-insensitive literal pattern. -/
def litCI (s : String) : List Pat := s.data.map fun c => Pat.one (chEq c)

/-- `\btoken\b`. -/
def altW (s : String) : Alt := ⟨false, Pat.bnd :: (litCI s ++ [Pat.bnd])⟩

/-- `^token\b`. -/
def altS (s : String) : Alt := ⟨true, litCI s ++ [Pat.bnd]⟩

/-- `\w*` -/
def wordMany : Pat := Pat.many isWordChar

/-- `\d` -/
def dig : Pat := Pat.one isDigitChar

/-- `\d*` -/
def digMany : Pat := Pat.many isDigitChar

/-- `\s*` -/
def wsMany : Pat := Pat.many isWsChar

/-! ## Intent classifier (src/unnamed/part_005, intent-classifier.js) -/

/-- Known brands for MODEL intent detection. -/
def KNOWN_BRANDS : List String := [
  "canon", "sony", "nikon", "fujifilm", "fuji", "panasonic", "lumix",
  "olympus", "om system", "leica", "sigma", "tamron", "viltrox", "samyang",
  "godox", "profoto", "manfrotto", "benro", "gitzo", "peak design",
  "lowepro", "hoya", "b+w", "nisi", "dji", "gopro", "sandisk", "lexar",
  "kingston", "zhiyun", "rode", "sennheiser", "smallrig", "fomei",
  "patona", "newell", "savage", "marumi", "epson", "glareone",
  "hasselblad", "ricoh", "pentax", "zeiss", "tokina", "laowa",
  "joby", "tether tools", "elinchrom", "broncolor", "aputure"]

/-- `BRAND_PATTERN`: alternation of all known brands between word
boundaries, case-insensitive. -/
def BRAND_ALTS : List Alt := KNOWN_BRANDS.map altW

/-- Known categories for CATEGORY intent. -/
def CATEGORY_NAMES : List (String × String) := [
  ("aparaty", "Aparaty cyfrowe"),
  ("aparaty cyfrowe", "Aparaty cyfrowe"),
  ("aparaty bezlusterkowe", "Aparaty cyfrowe"),
  ("bezlusterkowce", "Aparaty cyfrowe"),
  ("mirrorless", "Aparaty cyfrowe"),
  ("lustrzanki", "Aparaty cyfrowe"),
  ("dslr", "Aparaty cyfrowe"),
  ("aparaty analogowe", "Aparaty analogowe"),
  ("analogowe", "Aparaty analogowe"),
  ("obiektywy", "Obiektywy do bezlusterkowców"),
  ("obiektyw", "Obiektywy do bezlusterkowców"),
  ("obiektywy do bezlusterkowców", "Obiektywy do bezlusterkowców"),
  ("obiektywy do lustrzanek", "Obiektywy do lustrzanek"),
  ("statywy", "Statywy i akcesoria"),
  ("statyw", "Statywy i akcesoria"),
  ("lampy błyskowe", "Lampy błyskowe"),
  ("lampy", "Lampy błyskowe"),
  ("flesz", "Lampy błyskowe"),
  ("flash", "Lampy błyskowe"),
  ("lampy studyjne", "Lampy błyskowe studyjne"),
  ("oświetlenie", "Lampy światła ciągłego"),
  ("lampy wideo", "Lampy wideo"),
  ("softboxy", "Softboxy i akcesoria"),
  ("filtry", "Filtry, pokrywki"),
  ("filtr", "Filtry, pokrywki"),
  ("filtry nd", "Filtry, pokrywki"),
  ("filtry uv", "Filtry, pokrywki"),
  ("filtry prostokątne", "Filtry prostokątne"),
  ("karty pamięci", "Karty pamięci"),
  ("karty sd", "Karty pamięci"),
  ("karty cf", "Karty pamięci"),
  ("torby", "Torby, plecaki, walizki"),
  ("plecaki", "Torby, plecaki, walizki"),
  ("plecak", "Torby, plecaki, walizki"),
  ("walizki", "Torby, plecaki, walizki"),
  ("drony", "Drony"),
  ("dron", "Drony"),
  ("kamery", "Kamery cyfrowe"),
  ("kamera", "Kamery cyfrowe"),
  ("kamery sportowe", "Kamery sportowe"),
  ("gopro", "Kamery sportowe"),
  ("kamery internetowe", "Kamery internetowe"),
  ("gimbale", "Systemy stabilizacji"),
  ("gimbal", "Systemy stabilizacji"),
  ("stabilizatory", "Systemy stabilizacji"),
  ("audio", "Audio"),
  ("mikrofon", "Audio"),
  ("mikrofony", "Audio"),
  ("słuchawki", "Słuchawki"),
  ("akumulatory", "Akumulatory"),
  ("akumulator", "Akumulatory"),
  ("baterie", "Akumulatory"),
  ("ładowarki", "Ładowarki"),
  ("zasilanie", "Zasilanie"),
  ("lornetki", "Lornetki"),
  ("lornetka", "Lornetki"),
  ("lunety", "Lunety"),
  ("teleskopy", "Teleskopy"),
  ("monitory", "Monitory"),
  ("monitor", "Monitory"),
  ("drukarki", "Drukarki"),
  ("drukarka", "Drukarki"),
  ("skanery", "Skanery"),
  ("tablety", "Tablety"),
  ("etui", "Etui"),
  ("paski", "Paski i szelki"),
  ("adaptery", "Adaptery bagnetowe"),
  ("dyski", "Dyski twarde"),
  ("tła", "Tła i systemy zawieszania"),
  ("papier", "Papier fotograficzny"),
  ("używane", "Używane aparaty cyfrowe")]

/-- `[1-9]` -/
def d19 : Char → Bool := fun c => 49 ≤ c.toNat && c.toNat ≤ 57

/-- Camera/body model patterns per brand (`BODY_MODEL_PATTERNS`). -/
def BODY_MODEL_PATTERNS : List (String × List Alt) := [
  ("sony", [⟨true, [Pat.one (chEq 'a'), Pat.one d19, Pat.bnd]⟩,
            ⟨true, litCI "a7" ++ [Pat.opt (inStr "crs"), Pat.bnd]⟩,
            ⟨true, litCI "a6" ++ [dig, dig, dig, Pat.bnd]⟩,
            altS "a9", altS "alpha",
            ⟨true, litCI "fx" ++ [dig]⟩]),
  ("canon", [altS "eos",
             ⟨true, [Pat.one (chEq 'r'), dig, Pat.bnd]⟩,
             altS "r5", altS "r6", altS "r7", altS "r8", altS "r10",
             altS "r50", altS "r100", altS "powershot",
             altS "1d", altS "5d", altS "6d", altS "7d", altS "80d", altS "90d"]),
  ("nikon", [⟨true, [Pat.one (chEq 'z'), dig, Pat.bnd]⟩,
             altS "z5", altS "z6", altS "z7", altS "z8", altS "z9",
             altS "z30", altS "z50", altS "zf", altS "zfc",
             ⟨true, [Pat.one (chEq 'd'), dig, dig, dig, Pat.opt isDigitChar, Pat.bnd]⟩]),
  ("fujifilm", [⟨true, [Pat.one (chEq 'x'), Pat.opt (chEq '-'), Pat.one isLetterChar, dig]⟩,
                ⟨true, [Pat.one (chEq 'x'), Pat.opt (chEq '-'), Pat.one (inStr "thsep"), dig]⟩,
                altS "x100", altS "gfx"]),
  ("fuji", [⟨true, [Pat.one (chEq 'x'), Pat.opt (chEq '-'), Pat.one isLetterChar, dig]⟩,
            ⟨true, [Pat.one (chEq 'x'), Pat.opt (chEq '-'), Pat.one (inStr "thsep"), dig]⟩,
            altS "x100", altS "gfx"]),
  ("panasonic", [⟨true, [Pat.one (chEq 's'), dig, Pat.bnd]⟩, altS "s5",
                 ⟨true, litCI "gh" ++ [dig, Pat.bnd]⟩,
                 ⟨true, [Pat.one (chEq 'g'), dig, Pat.bnd]⟩, altS "lumix"]),
  ("lumix", [⟨true, [Pat.one (chEq 's'), dig, Pat.bnd]⟩, altS "s5",
             ⟨true, litCI "gh" ++ [dig, Pat.bnd]⟩,
             ⟨true, [Pat.one (chEq 'g'), dig, Pat.bnd]⟩]),
  ("olympus", [⟨true, litCI "om" ++ [Pat.opt (chEq '-'), dig, Pat.bnd]⟩,
               ⟨true, [Pat.one (chEq 'e'), Pat.opt (chEq '-'), Pat.one (chEq 'm'), dig, Pat.bnd]⟩,
               altS "pen"]),
  ("om system", [⟨true, litCI "om" ++ [Pat.opt (chEq '-'), dig, Pat.bnd]⟩,
                 ⟨true, [Pat.one (chEq 'e'), Pat.opt (chEq '-'), Pat.one (chEq 'm'), dig, Pat.bnd]⟩]),
  ("leica", [⟨true, litCI "sl" ++ [Pat.opt isDigitChar, Pat.bnd]⟩,
             ⟨true, [Pat.one (chEq 'q'), Pat.opt isDigitChar, Pat.bnd]⟩,
             ⟨true, [Pat.one (chEq 'm'), dig, Pat.opt isDigitChar, Pat.bnd]⟩,
             altS "cl"]),
  ("hasselblad", [⟨true, [Pat.one (chEq 'x'), dig, Pat.one (chEq 'd'), Pat.bnd]⟩, altS "907"]),
  ("ricoh", [altS "gr", altS "theta"]),
  ("pentax", [⟨true, [Pat.one (chEq 'k'), Pat.opt (chEq '-'), dig, Pat.bnd]⟩]),
  ("dji", [altS "mavic", altS "mini", altS "air", altS "phantom",
           altS "osmo", altS "pocket", altS "avata", altS "action"]),
  ("gopro", [altS "hero", altS "max"])]

/-- `detectBodyQuery(brand, afterBrand)`. -/
def detectBodyQuery (brand : String) (afterBrand : String) : Bool :=
  match BODY_MODEL_PATTERNS.lookup (lowerStr brand) with
  | some alts => rtest alts afterBrand
  | none => false

/-- Reverse map `MODEL_TO_BRAND`: model/series pattern to brand, in source
order. -/
def MODEL_TO_BRAND : List (List Alt × String) := [
  ([altW "eos",
    ⟨true, [Pat.one (chEq 'r'), dig, Pat.bnd]⟩,
    altS "r5", altS "r6", altS "r7", altS "r8", altS "r10",
    altS "r50", altS "r100", altS "powershot",
    altW "1d", altW "5d", altW "6d", altW "7d", altW "80d", altW "90d"], "canon"),
  ([altW "alpha",
    ⟨true, [Pat.one (chEq 'a'), Pat.one d19, Pat.bnd]⟩,
    ⟨true, litCI "a7" ++ [Pat.opt (inStr "crs"), Pat.bnd]⟩,
    ⟨true, litCI "a6" ++ [dig, dig, dig, Pat.bnd]⟩,
    altS "a9",
    ⟨true, litCI "zv" ++ [Pat.opt (chEq '-'), Pat.one (fun c => isDigitChar c || lowCh c == 'e')]⟩], "sony"),
  ([altW "lumix",
    ⟨true, litCI "gh" ++ [dig, Pat.bnd]⟩,
    ⟨true, [Pat.one (chEq 'g'), dig, Pat.bnd]⟩,
    altS "s5"], "panasonic"),
  ([⟨true, [Pat.one (chEq 'x'), Pat.opt (chEq '-'), Pat.one (chEq 't'), dig]⟩,
    ⟨true, [Pat.one (chEq 'x'), Pat.opt (chEq '-'), Pat.one (inStr "hsep"), dig]⟩,
    altS "x100", altS "gfx",
    ⟨true, [Pat.one (chEq 'x'), Pat.opt (chEq '-')] ++ litCI "pro"⟩], "fujifilm"),
  ([⟨true, [Pat.one (chEq 'z'), Pat.one (inStr "56789"), Pat.bnd]⟩,
    altS "z30", altS "z50", altS "zf", altS "zfc",
    ⟨true, [Pat.one (chEq 'd'), Pat.one (inStr "3456789"), dig, dig, Pat.bnd]⟩,
    ⟨true, [Pat.one (chEq 'd'), dig, dig, dig, dig, Pat.bnd]⟩], "nikon"),
  ([altW "mavic", altW "osmo", altW "phantom", altW "avata"], "dji"),
  ([altW "hero"], "gopro"),
  ([⟨true, litCI "om" ++ [Pat.opt (chEq '-'), dig, Pat.bnd]⟩,
    ⟨true, [Pat.one (chEq 'e'), Pat.opt (chEq '-'), Pat.one (chEq 'm'), dig, Pat.bnd]⟩,
    altS "pen"], "olympus"),
  ([altS "gr", altS "theta"], "ricoh"),
  ([⟨true, [Pat.one (chEq 'k'), Pat.opt (chEq '-'), dig, Pat.bnd]⟩], "pentax")]

/-- `USED_PATTERN`. -/
def USED_PATTERN : List Alt := [
  ⟨false, Pat.bnd :: (litCI "używ" ++ [wordMany, Pat.bndEos])⟩,
  ⟨false, Pat.bnd :: (litCI "uzyw" ++ [wordMany, Pat.bndEos])⟩,
  ⟨false, Pat.bnd :: (litCI "second" ++ [Pat.opt (fun c => isWsChar c || c == '-')] ++ litCI "hand" ++ [Pat.bndEos])⟩,
  ⟨false, Pat.bnd :: (litCI "poleasingow" ++ [wordMany, Pat.bndEos])⟩]

/-- `NEW_PATTERN`. -/
def NEW_PATTERN : List Alt := [
  ⟨false, Pat.bnd :: (litCI "now" ++ [Pat.one (inStr "yaeio"), Pat.bndEos])⟩,
  ⟨false, Pat.bnd :: (litCI "fabryczni" ++ [Pat.opt (chEq 'e'), wsMany] ++ litCI "now" ++ [Pat.one (inStr "yaeio"), Pat.bndEos])⟩,
  ⟨false, Pat.bnd :: (litCI "nówka" ++ [Pat.bndEos])⟩]

/-- `ACCESSORY_PATTERN`. -/
def ACCESSORY_PATTERN : List Alt := [
  ⟨false, Pat.bnd :: (litCI "akceso" ++ [wordMany, Pat.bndEos])⟩,
  ⟨false, Pat.bnd :: (litCI "accesso" ++ [wordMany, Pat.bndEos])⟩,
  ⟨false, Pat.bnd :: (litCI "klatk" ++ [Pat.one (inStr "aię"), wordMany, Pat.bndEos])⟩,
  ⟨false, Pat.bnd :: (litCI "grip" ++ [wordMany, Pat.bndEos])⟩,
  ⟨false, Pat.bnd :: (litCI "osłon" ++ [wordMany, Pat.bndEos])⟩,
  ⟨false, Pat.bnd :: (litCI "etui" ++ [wordMany, Pat.bndEos])⟩,
  ⟨false, Pat.bnd :: (litCI "filtr" ++ [wordMany, Pat.bndEos])⟩,
  ⟨false, Pat.bnd :: (litCI "torb" ++ [Pat.one (inStr "aęy"), wordMany, Pat.bndEos])⟩,
  ⟨false, Pat.bnd :: (litCI "plecak" ++ [wordMany, Pat.bndEos])⟩,
  ⟨false, Pat.bnd :: (litCI "pasek" ++ [wordMany, Pat.bndEos])⟩,
  ⟨false, Pat.bnd :: (litCI "ładowark" ++ [wordMany, Pat.bndEos])⟩,
  ⟨false, Pat.bnd :: (litCI "akumulat" ++ [wordMany, Pat.bndEos])⟩,
  ⟨false, Pat.bnd :: (litCI "bateri" ++ [wordMany, Pat.bndEos])⟩]

/-- `detectConditionPreference`. -/
def detectConditionPreference (q : String) : Option String :=
  if rtest USED_PATTERN q then some "used"
  else if rtest NEW_PATTERN q then some "new"
  else none

/-- `detectAccessoryPreference`. -/
def detectAccessoryPreference (q : String) : Bool :=
  rtest ACCESSORY_PATTERN q

/-- `ACCESSORY_TO_CATEGORY` map (value `none` models the JS `null` for the
generic key). -/
def ACCESSORY_TO_CATEGORY : List (String × Option String) := [
  ("akumulator", some "Akumulatory"), ("akumulatory", some "Akumulatory"),
  ("bateria", some "Akumulatory"), ("baterie", some "Akumulatory"),
  ("ładowarka", some "Ładowarki"), ("ładowarki", some "Ładowarki"),
  ("filtr", some "Filtry, pokrywki"), ("filtry", some "Filtry, pokrywki"),
  ("torba", some "Torby, plecaki, walizki"), ("torby", some "Torby, plecaki, walizki"),
  ("plecak", some "Torby, plecaki, walizki"), ("plecaki", some "Torby, plecaki, walizki"),
  ("etui", some "Etui"),
  ("grip", some "Akumulatory"), ("gripy", some "Akumulatory"),
  ("klatka", some "Rigi i akcesoria"), ("klatki", some "Rigi i akcesoria"),
  ("osłona", some "Akcesoria drobne"), ("osłony", some "Akcesoria drobne"),
  ("pasek", some "Paski i szelki"), ("paski", some "Paski i szelki"),
  ("akcesoria", none)]

/-- Word-by-word lookup of `detectAccessoryCategory`: exact key match first,
then a prefix match (minimum 4 typed characters), per query word in order. -/
def accCatGo : List String → Option String
  | [] => none
  | w :: ws =>
    match ACCESSORY_TO_CATEGORY.lookup w with
    | some v => v
    | none =>
      match ACCESSORY_TO_CATEGORY.findSome?
          (fun kv => if 4 ≤ w.length && List.isPrefixOf w.data kv.1.data then some kv.2 else none) with
      | some v => v
      | none => accCatGo ws

/-- `detectAccessoryCategory`. -/
def detectAccessoryCategory (q : String) : Option String :=
  accCatGo (splitWs (lowerStr q))

/-- `stripModifierWords`: remove the first accessory match, the first used
match and the first new match, collapse whitespace, trim. -/
def stripModifierWords (q : String) : String :=
  jsTrim (replaceAll [⟨false, [Pat.one isWsChar, wsMany]⟩] [' ']
    (replaceFirst NEW_PATTERN []
      (replaceFirst USED_PATTERN []
        (replaceFirst ACCESSORY_PATTERN [] q))))

/-- `PATTERNS.EAN`: exactly 8 or 13 digits. -/
def eanTest (s : String) : Bool :=
  (s.data.length == 8 || s.data.length == 13) && s.data.all isDigitChar

/-- `[A-Z]*\d` with trailing `[A-Z0-9]*`: after the separator there must be
letters followed by a digit (existence semantics of `regex.test`). -/
def lettersThenDigit : List Char → Bool
  | [] => false
  | c :: rest =>
    if isDigitChar c then true
    else if isLetterChar c then lettersThenDigit rest
    else false

/-- One `{2,4}` repetition choice of `PATTERNS.SKU` at letter count `k`. -/
def skuTestAt (cs : List Char) (k : Nat) : Bool :=
  (cs.take k).all isLetterChar &&
    (match cs.drop k with
     | c :: rest => (c == '-' || c == '_') && lettersThenDigit rest
     | [] => false)

/-- `PATTERNS.SKU.test`: `^[A-Z]{2,4}[-_][A-Z]*\d[A-Z0-9]*` (case-insensitive;
`test` only needs some repetition count in 2..4 to succeed). -/
def skuTest (s : String) : Bool :=
  [2, 3, 4].any (skuTestAt s.data)

/-- `/[a-z0-9]/i.test` on the text after the brand. -/
def hasAlnum (s : String) : Bool := s.data.any isAlnumChar

/-- `BRAND_PATTERN.exec`: first (leftmost) whole-word brand occurrence;
returns the matched slice in original case and the text after the match. -/
def brandExec (q : String) : Option (String × String) :=
  match findMatch BRAND_ALTS none q.data with
  | some (_, m, a) => some (String.mk m, String.mk a)
  | none => none

/-- Walk `MODEL_TO_BRAND` in order against the cleaned query. -/
def mtbGo : List (List Alt × String) → String → Option (String × Bool)
  | [], _ => none
  | (alts, brand) :: rest, cleaned =>
    if rtest alts cleaned then some (brand, detectBodyQuery brand cleaned)
    else mtbGo rest cleaned

/-- `inferBrandFromModel`: strip condition words, then match the reverse
model-to-brand table; on success also decide body-query. -/
def inferBrandFromModel (q : String) : Option (String × Bool) :=
  mtbGo MODEL_TO_BRAND (jsTrim (replaceFirst NEW_PATTERN [] (replaceFirst USED_PATTERN [] q)))

/-- `PATTERNS.PARAMETRIC_APERTURE`: `f\/\d+\.?\d*`. -/
def PARAMETRIC_APERTURE : List Alt :=
  [⟨false, litCI "f/" ++ [dig, digMany, Pat.opt (chEq '.'), digMany]⟩]

/-- `PATTERNS.PARAMETRIC_FOCAL`: `\d+(?:-\d+)?\s*mm`. -/
def PARAMETRIC_FOCAL : List Alt := [
  ⟨false, [dig, digMany, Pat.one (chEq '-'), dig, digMany, wsMany] ++ litCI "mm"⟩,
  ⟨false, [dig, digMany, wsMany] ++ litCI "mm"⟩]

/-- `PATTERNS.PARAMETRIC_RES`: `\b\d+[kK]\b`. -/
def PARAMETRIC_RES : List Alt :=
  [⟨false, [Pat.bnd, dig, digMany, Pat.one (inStr "k"), Pat.bnd]⟩]

/-- `PATTERNS.PARAMETRIC_FPS`: `\d+\s*fps`. -/
def PARAMETRIC_FPS : List Alt :=
  [⟨false, [dig, digMany, wsMany] ++ litCI "fps"⟩]

/-- `PATTERNS.PARAMETRIC_SENSOR`. -/
def PARAMETRIC_SENSOR : List Alt := [
  ⟨false, Pat.bnd :: (litCI "full" ++ [wsMany] ++ litCI "frame" ++ [Pat.bnd])⟩,
  ⟨false, Pat.bnd :: (litCI "aps" ++ [Pat.opt (chEq '-')] ++ litCI "c" ++ [Pat.bnd])⟩,
  ⟨false, Pat.bnd :: (litCI "micro" ++ [wsMany] ++ litCI "4/3" ++ [Pat.bnd])⟩,
  ⟨false, Pat.bnd :: (litCI "m43" ++ [Pat.bnd])⟩,
  ⟨false, Pat.bnd :: (litCI "pełna" ++ [wsMany] ++ litCI "klatka" ++ [Pat.bnd])⟩]

/-- `PATTERNS.PARAMETRIC_MOUNT`. -/
def PARAMETRIC_MOUNT : List Alt :=
  ["RF", "EF", "FE", "E-mount", "Z-mount", "X-mount", "L-mount", "MFT"].map altW

/-- `PATTERNS.PRICE`, expanded into its backtracking alternatives (the
optional currency suffix is tried with `zł`, then `pln`, then absent, which
mirrors the greedy optional group). -/
def PRICE_ALTS : List Alt := [
  ⟨false, litCI "do" ++ [Pat.one isWsChar, wsMany, dig, digMany, wsMany] ++ litCI "zł"⟩,
  ⟨false, litCI "do" ++ [Pat.one isWsChar, wsMany, dig, digMany, wsMany] ++ litCI "pln"⟩,
  ⟨false, litCI "do" ++ [Pat.one isWsChar, wsMany, dig, digMany, wsMany]⟩,
  ⟨false, litCI "poniżej" ++ [Pat.one isWsChar, wsMany, dig, digMany]⟩,
  ⟨false, litCI "tani" ++ [Pat.opt (inStr "ae"), Pat.bnd]⟩]

/-- Digit-string to number (`parseInt(..., 10)` on an all-digit capture). -/
def parseNatDigits (cs : List Char) : Nat :=
  cs.foldl (fun a c => a * 10 + (c.toNat - 48)) 0

/-- Recover the capture group of a `PATTERNS.PRICE` match from the matched
slice: the `do ...` alternatives capture the digits after the first
whitespace run, `poniżej ...` captures its digit run, `tani` captures
nothing. -/
def priceCapture (m : List Char) : Option (List Char) :=
  if List.isPrefixOf ['d', 'o'] (m.map lowCh) then
    some (((m.drop 2).dropWhile isWsChar).takeWhile isDigitChar)
  else if List.isPrefixOf ['t', 'a'] (m.map lowCh) then
    none
  else
    some ((m.dropWhile (fun c => !isDigitChar c)).takeWhile isDigitChar)

/-- A structured parameter value: string-valued or numeric. -/
inductive PVal where
  | s (v : String)
  | n (v : Rat)
deriving Repr, DecidableEq

/-- The intent record produced by `classifyIntent`; absent JS fields are
`none`/defaults (`params` is attached by callers that extract parameters,
never by the classifier itself). -/
structure Intent where
  type : String
  query : String
  conditionPref : Option String := none
  wantsAccessories : Bool := false
  accessoryCategory : Option String := none
  modelQuery : Option String := none
  brand : Option String := none
  isBodyQuery : Option Bool := none
  category : Option String := none
  maxPrice : Option Nat := none
  detectedCategory : Option String := none
  compatMounts : Option (List String) := none
  compatibilityMode : Bool := false
  textQuery : Option String := none
  params : List (String × PVal) := []
deriving Repr, DecidableEq

/-- `classifyIntent(query)`: the ordered first-match-wins rule cascade. -/
def classifyIntent (query : String) : Intent :=
  let q := jsTrim query
  let conditionPref := detectConditionPreference q
  let wantsAccessories := detectAccessoryPreference q
  let accessoryCategory := if wantsAccessories then detectAccessoryCategory q else none
  if eanTest q then
    { type := "EAN", query := q, conditionPref, wantsAccessories }
  else if skuTest q then
    { type := "SKU", query := q, conditionPref, wantsAccessories }
  else
    match brandExec q with
    | some (brandMatched, afterRaw) =>
      let afterBrand := jsTrim afterRaw
      if hasAlnum afterBrand then
        let isBodyQuery := if wantsAccessories then false else detectBodyQuery brandMatched afterBrand
        { type := "MODEL", query := q, modelQuery := some (stripModifierWords q),
          brand := some brandMatched, isBodyQuery := some isBodyQuery,
          conditionPref, wantsAccessories, accessoryCategory }
      else
        { type := "BRAND", query := q, brand := some brandMatched,
          conditionPref, wantsAccessories, accessoryCategory }
    | none =>
      match inferBrandFromModel q with
      | some inferred =>
        let isBodyQuery := if wantsAccessories then false else inferred.2
        { type := "MODEL", query := q, modelQuery := some (stripModifierWords q),
          brand := some inferred.1, isBodyQuery := some isBodyQuery,
          conditionPref, wantsAccessories, accessoryCategory }
      | none =>
        if rtest PARAMETRIC_APERTURE q || rtest PARAMETRIC_FOCAL q ||
            rtest PARAMETRIC_RES q || rtest PARAMETRIC_FPS q ||
            rtest PARAMETRIC_SENSOR q || rtest PARAMETRIC_MOUNT q then
          { type := "PARAMETRIC", query := q, conditionPref, wantsAccessories }
        else
          match CATEGORY_NAMES.lookup (lowerStr q) with
          | some mappedCategory =>
            { type := "CATEGORY", query := q, category := some mappedCategory,
              conditionPref, wantsAccessories }
          | none =>
            match findMatch PRICE_ALTS none q.data with
            | some pm =>
              let maxPrice :=
                match priceCapture pm.2.1 with
                | some ds => (fun n => if n = 0 then none else some n) (parseNatDigits ds)
                | none => none
              let cleanQuery := jsTrim (replaceFirst PRICE_ALTS [] q)
              { type := "PRICE", query := if cleanQuery = "" then q else cleanQuery,
                maxPrice, conditionPref, wantsAccessories }
            | none =>
              { type := "GENERAL", query := q, conditionPref, wantsAccessories }

/-! ## Parameter extractor (src/backend/src/services/param-extractor.js) -/

/-- `Object.assign` semantics on a field map: overwrite in place, append new
keys in order. -/
def assignKV (ps : List (String × PVal)) (kv : String × PVal) : List (String × PVal) :=
  if ps.any (fun p => p.1 == kv.1) then
    ps.map (fun p => if p.1 == kv.1 then (p.1, kv.2) else p)
  else ps ++ [kv]

/-- Assign several fields in order. -/
def assignKVs (ps : List (String × PVal)) (kvs : List (String × PVal)) : List (String × PVal) :=
  kvs.foldl assignKV ps

/-- Digit-dot capture to a rational (`parseFloat` on `\d+(?:\.\d+)?`). -/
def parseRatDigits (cs : List Char) : Rat :=
  let ip := cs.takeWhile isDigitChar
  let fp := ((cs.dropWhile isDigitChar).drop 1).takeWhile isDigitChar
  (parseNatDigits ip : Rat) + (if fp.isEmpty then 0 else (parseNatDigits fp : Rat) / (10 ^ fp.length))

/-- `aperture` extractor pattern `f\/(\d+\.?\d*)`. -/
def EXT_APERTURE : List Alt :=
  [⟨false, litCI "f/" ++ [dig, digMany, Pat.opt (chEq '.'), digMany]⟩]

/-- `focal_range` pattern `(\d+)-(\d+)\s*mm`. -/
def EXT_FOCAL_RANGE : List Alt :=
  [⟨false, [dig, digMany, Pat.one (chEq '-'), dig, digMany, wsMany] ++ litCI "mm"⟩]

/-- `focal_single` pattern `\b(\d+)\s*mm\b`. -/
def EXT_FOCAL_SINGLE : List Alt :=
  [⟨false, [Pat.bnd, dig, digMany, wsMany] ++ litCI "mm" ++ [Pat.bnd]⟩]

/-- `video_resolution` pattern `\b(\d+)[kK]\b`. -/
def EXT_VIDEO_RES : List Alt :=
  [⟨false, [Pat.bnd, dig, digMany, Pat.one (inStr "k"), Pat.bnd]⟩]

/-- `video_fps` pattern `(\d+)\s*fps`. -/
def EXT_VIDEO_FPS : List Alt :=
  [⟨false, [dig, digMany, wsMany] ++ litCI "fps"⟩]

/-- `sensor_size` pattern `\b(full\s*frame|pełna\s*klatka|ff)\b`. -/
def EXT_SENSOR_FF : List Alt := [
  ⟨false, Pat.bnd :: (litCI "full" ++ [wsMany] ++ litCI "frame" ++ [Pat.bnd])⟩,
  ⟨false, Pat.bnd :: (litCI "pełna" ++ [wsMany] ++ litCI "klatka" ++ [Pat.bnd])⟩,
  ⟨false, Pat.bnd :: (litCI "ff" ++ [Pat.bnd])⟩]

/-- `sensor_size_apsc` pattern `\b(aps-?c)\b`. -/
def EXT_SENSOR_APSC : List Alt :=
  [⟨false, Pat.bnd :: (litCI "aps" ++ [Pat.opt (chEq '-')] ++ litCI "c" ++ [Pat.bnd])⟩]

/-- `sensor_size_m43` pattern `\b(micro\s*4\/3|m43|mft)\b`. -/
def EXT_SENSOR_M43 : List Alt := [
  ⟨false, Pat.bnd :: (litCI "micro" ++ [wsMany] ++ litCI "4/3" ++ [Pat.bnd])⟩,
  ⟨false, Pat.bnd :: (litCI "m43" ++ [Pat.bnd])⟩,
  ⟨false, Pat.bnd :: (litCI "mft" ++ [Pat.bnd])⟩]

/-- `mount` pattern `\b(RF|EF|FE|E-mount|Z-mount|X-mount|L-mount|MFT)\b`. -/
def EXT_MOUNT : List Alt :=
  ["RF", "EF", "FE", "E-mount", "Z-mount", "X-mount", "L-mount", "MFT"].map altW

/-- `filter_diameter` pattern `\b(\d{2})\s*mm\b` (context-gated). -/
def EXT_FILTER_DIAM : List Alt :=
  [⟨false, [Pat.bnd, dig, dig, wsMany] ++ litCI "mm" ++ [Pat.bnd]⟩]

/-- `filter_diameter` context pattern `filtr|cpl|nd|uv|polaryz`. -/
def EXT_FILTER_CTX : List Alt :=
  [⟨false, litCI "filtr"⟩, ⟨false, litCI "cpl"⟩, ⟨false, litCI "nd"⟩,
   ⟨false, litCI "uv"⟩, ⟨false, litCI "polaryz"⟩]

/-- `megapixels` pattern `(\d+(?:\.\d+)?)\s*(?:MP|Mpx|megapiksel)`, expanded
into its backtracking alternatives (fraction-first, suffixes in order). -/
def EXT_MEGAPIXELS : List Alt := [
  ⟨false, [dig, digMany, Pat.one (chEq '.'), dig, digMany, wsMany] ++ litCI "MP"⟩,
  ⟨false, [dig, digMany, Pat.one (chEq '.'), dig, digMany, wsMany] ++ litCI "Mpx"⟩,
  ⟨false, [dig, digMany, Pat.one (chEq '.'), dig, digMany, wsMany] ++ litCI "megapiksel"⟩,
  ⟨false, [dig, digMany, wsMany] ++ litCI "MP"⟩,
  ⟨false, [dig, digMany, wsMany] ++ litCI "Mpx"⟩,
  ⟨false, [dig, digMany, wsMany] ++ litCI "megapiksel"⟩]

/-- `extractParams(query)`: run the `EXTRACTORS` list in source order; each
extractor that matches (and whose context pattern, when present, matches)
assigns its fields. -/
def extractParams (query : String) : List (String × PVal) :=
  let q := query
  let ps : List (String × PVal) := []
  let ps := match findMatch EXT_APERTURE none q.data with
    | some r => assignKVs ps [("params.aperture", PVal.s ("f/" ++ String.mk (r.2.1.drop 2)))]
    | none => ps
  let ps := match findMatch EXT_FOCAL_RANGE none q.data with
    | some r =>
      let m := r.2.1
      let m1 := m.takeWhile isDigitChar
      let m2 := ((m.dropWhile isDigitChar).drop 1).takeWhile isDigitChar
      assignKVs ps [("params.focal_length_min", PVal.n (parseNatDigits m1 : Rat)),
                    ("params.focal_length_max", PVal.n (parseNatDigits m2 : Rat))]
    | none => ps
  let ps := match findMatch EXT_FOCAL_SINGLE none q.data with
    | some r =>
      let n : Rat := (parseNatDigits (r.2.1.takeWhile isDigitChar) : Rat)
      assignKVs ps [("params.focal_length_min", PVal.n n),
                    ("params.focal_length_max", PVal.n n)]
    | none => ps
  let ps := match findMatch EXT_VIDEO_RES none q.data with
    | some r => assignKVs ps [("params.video_resolution", PVal.s (String.mk (r.2.1.takeWhile isDigitChar) ++ "K"))]
    | none => ps
  let ps := match findMatch EXT_VIDEO_FPS none q.data with
    | some r => assignKVs ps [("params.video_fps", PVal.n (parseNatDigits (r.2.1.takeWhile isDigitChar) : Rat))]
    | none => ps
  let ps := match findMatch EXT_SENSOR_FF none q.data with
    | some _ => assignKVs ps [("params.sensor_size", PVal.s "Full Frame")]
    | none => ps
  let ps := match findMatch EXT_SENSOR_APSC none q.data with
    | some _ => assignKVs ps [("params.sensor_size", PVal.s "APS-C")]
    | none => ps
  let ps := match findMatch EXT_SENSOR_M43 none q.data with
    | some _ => assignKVs ps [("params.sensor_size", PVal.s "Micro 4/3")]
    | none => ps
  let ps := match findMatch EXT_MOUNT none q.data with
    | some r => assignKVs ps [("params.mount", PVal.s (upperStr (String.mk r.2.1)))]
    | none => ps
  let ps :=
    if rtest EXT_FILTER_CTX q then
      match findMatch EXT_FILTER_DIAM none q.data with
      | some r => assignKVs ps [("params.filter_diameter", PVal.n (parseNatDigits (r.2.1.takeWhile isDigitChar) : Rat))]
      | none => ps
    else ps
  let ps := match findMatch EXT_MEGAPIXELS none q.data with
    | some r => assignKVs ps [("params.megapixels", PVal.n (parseRatDigits (r.2.1.takeWhile (fun c => isDigitChar c || c == '.'))))]
    | none => ps
  ps

/-- `stripParams(query)`: remove all aperture/focal/resolution/fps/sensor/
mount spans (global replaces, in source order), collapse whitespace, trim. -/
def stripParams (query : String) : String :=
  let q := query
  let q := replaceAll EXT_APERTURE [] q
  let q := replaceAll [⟨false, [dig, digMany, Pat.one (chEq '-'), dig, digMany, wsMany] ++ litCI "mm"⟩] [] q
  let q := replaceAll [⟨false, [Pat.bnd, dig, digMany, wsMany] ++ litCI "mm" ++ [Pat.bnd]⟩] [] q
  let q := replaceAll [⟨false, [Pat.bnd, dig, digMany, Pat.one (inStr "k"), Pat.bnd]⟩] [] q
  let q := replaceAll [⟨false, [dig, digMany, wsMany] ++ litCI "fps"⟩] [] q
  let q := replaceAll [
    ⟨false, Pat.bnd :: (litCI "full" ++ [wsMany] ++ litCI "frame" ++ [Pat.bnd])⟩,
    ⟨false, Pat.bnd :: (litCI "pełna" ++ [wsMany] ++ litCI "klatka" ++ [Pat.bnd])⟩,
    ⟨false, Pat.bnd :: (litCI "ff" ++ [Pat.bnd])⟩,
    ⟨false, Pat.bnd :: (litCI "aps" ++ [Pat.opt (chEq '-')] ++ litCI "c" ++ [Pat.bnd])⟩,
    ⟨false, Pat.bnd :: (litCI "micro" ++ [wsMany] ++ litCI "4/3" ++ [Pat.bnd])⟩,
    ⟨false, Pat.bnd :: (litCI "m43" ++ [Pat.bnd])⟩,
    ⟨false, Pat.bnd :: (litCI "mft" ++ [Pat.bnd])⟩] [] q
  let q := replaceAll (["RF", "EF", "FE", "E-mount", "Z-mount", "X-mount", "L-mount", "MFT"].map altW) [] q
  let q := replaceAll [⟨false, [Pat.one isWsChar, wsMany]⟩] [' '] q
  jsTrim q

/-! ## Query builder (src/unnamed/part_003, query-builder.js) -/

/-- JSON-like AST for the structured queries handed to the index.  Painless
script sources are represented by symbolic `script` tags (their numeric
per-document semantics for ranking is modelled separately below). -/
inductive J where
  | str (s : String)
  | num (q : Rat)
  | boolean (b : Bool)
  | nul
  | arr (xs : List J)
  | obj (fs : List (String × J))
  | script (id : String) (params : List (String × J))

/-- Brand case normalization map (`BRAND_CASE_MAP`). -/
def BRAND_CASE_MAP : List (String × String) := [
  ("dji", "DJI"), ("nisi", "NISI"), ("nanlite", "NANLITE"), ("b+w", "B+W"),
  ("gopro", "GoPro"), ("glareone", "GlareOne"), ("peak design", "Peak Design"),
  ("om system", "OM System"), ("easycover", "EasyCover"),
  ("blackmagic", "Blackmagic"), ("venus optics", "Venus Optics"),
  ("insta360", "Insta360")]

/-- `\b\w` title-casing scan: uppercase every word character that starts a
word. -/
def titleCaseGo : Option Char → List Char → List Char
  | _, [] => []
  | prev, c :: rest =>
    (if isWordChar c && !(match prev with | some p => isWordChar p | none => false)
     then upCh c else c) :: titleCaseGo (some c) rest

/-- `normalizeBrandCase(brand)`. -/
def normalizeBrandCase (brand : String) : String :=
  let lower := lowerStr brand
  match BRAND_CASE_MAP.lookup lower with
  | some v => v
  | none => String.mk (titleCaseGo none lower.data)

/-- Field boost configuration `NAME_FIELDS`. -/
def NAME_FIELDS : List String := [
  "name.exact^10", "model_code^8", "name.prefix^4", "name.folded^3",
  "name.morfologik^2", "name.stempel^1", "description^0.5"]

/-- `NAME_FIELDS_LIGHT`. -/
def NAME_FIELDS_LIGHT : List String := [
  "name.exact^10", "name.prefix^4", "name.folded^3", "name.morfologik^2"]

/-- Field list to a JSON array. -/
def jFields (fs : List String) : J := J.arr (fs.map J.str)

/-- A `PVal` as JSON. -/
def jval : PVal → J
  | .s v => J.str v
  | .n v => J.num v

/-- Substring test (JS `String.prototype.includes`). -/
def listContainsSub (sub : List Char) : List Char → Bool
  | [] => sub.isEmpty
  | c :: rest => List.isPrefixOf sub (c :: rest) || listContainsSub sub (rest)

/-- `buildParamFilters(params)`. -/
def buildParamFilters (params : List (String × PVal)) : List J :=
  params.map fun fv =>
    if listContainsSub "focal_length_min".data fv.1.data then
      J.obj [("range", J.obj [("params.focal_length_min", J.obj [("lte", jval fv.2)])])]
    else if listContainsSub "focal_length_max".data fv.1.data then
      J.obj [("range", J.obj [("params.focal_length_max", J.obj [("gte", jval fv.2)])])]
    else
      J.obj [("term", J.obj [(fv.1, jval fv.2)])]

/-- Remove the first case-insensitive occurrence of `pat` (the JS
`q.replace(new RegExp(escaped, 'i'), '')` with a fully escaped literal). -/
def removeFirstCIgo (pat : List Char) : List Char → List Char
  | [] => []
  | c :: rest =>
    if List.isPrefixOf (pat.map lowCh) ((c :: rest).map lowCh) then (c :: rest).drop pat.length
    else c :: removeFirstCIgo pat rest

/-- String version of `removeFirstCIgo`. -/
def replaceFirstCI (s pat : String) : String :=
  String.mk (removeFirstCIgo pat.data s.data)

/-- An optional string as a JSON value (`undefined`/absent maps to null). -/
def jOptStr : Option String → J
  | some s => J.str s
  | none => J.nul

/-- `buildIntentQuery(q, intent)`: the per-intent base query. -/
def buildIntentQuery (q : String) (intent : Intent) : J :=
  match intent.type with
  | "EAN" => J.obj [("term", J.obj [("ean", J.str q)])]
  | "SKU" =>
    let skuUpper := upperStr q
    let skuLower := lowerStr q
    J.obj [("bool", J.obj [
      ("must", J.arr [
        J.obj [("multi_match", J.obj [("query", J.str q), ("fields", jFields NAME_FIELDS_LIGHT), ("type", J.str "best_fields")])]]),
      ("should", J.arr [
        J.obj [("term", J.obj [("sku", J.obj [("value", J.str q), ("boost", J.num 200)])])],
        J.obj [("term", J.obj [("sku", J.obj [("value", J.str skuUpper), ("boost", J.num 200)])])],
        J.obj [("term", J.obj [("sku", J.obj [("value", J.str skuLower), ("boost", J.num 200)])])],
        J.obj [("term", J.obj [("manufacturer_code", J.obj [("value", J.str q), ("boost", J.num 200)])])],
        J.obj [("term", J.obj [("manufacturer_code", J.obj [("value", J.str skuUpper), ("boost", J.num 200)])])],
        J.obj [("term", J.obj [("manufacturer_code", J.obj [("value", J.str skuLower), ("boost", J.num 200)])])],
        J.obj [("term", J.obj [("model_code", J.obj [("value", J.str q), ("boost", J.num 200)])])],
        J.obj [("term", J.obj [("model_code", J.obj [("value", J.str skuUpper), ("boost", J.num 200)])])],
        J.obj [("term", J.obj [("model_code", J.obj [("value", J.str skuLower), ("boost", J.num 200)])])],
        J.obj [("match_phrase", J.obj [("name.morfologik", J.obj [("query", J.str q), ("boost", J.num 50)])])]])])]
  | "MODEL" =>
    let modelBrand : Option String :=
      match intent.brand with
      | some b => if b = "" then none else some (normalizeBrandCase b)
      | none => none
    let modelQuery : String :=
      match intent.modelQuery with
      | some m => if m = "" then q else m
      | none => q
    if intent.wantsAccessories && modelQuery != q then
      let accessoryPart := jsTrim (replaceFirstCI q modelQuery)
      let accCategory := intent.accessoryCategory
      let mustClauses : List J :=
        [J.obj [("bool", J.obj [
          ("should", J.arr [
            J.obj [("multi_match", J.obj [("query", J.str modelQuery), ("fields", jFields ["name.folded^3", "name.morfologik^2", "name.prefix^1"]), ("type", J.str "best_fields")])],
            J.obj [("match", J.obj [("description", J.obj [("query", J.str modelQuery), ("operator", J.str "and")])])]]),
          ("minimum_should_match", J.num 1)])]] ++
        (match accCategory with
         | some c => if c ≠ "" then [J.obj [("term", J.obj [("category", J.str c)])]] else []
         | none => [])
      let shouldClauses : List J :=
        [J.obj [("multi_match", J.obj [("query", J.str q), ("fields", jFields NAME_FIELDS), ("type", J.str "cross_fields"), ("boost", J.num 5)])]] ++
        (if accessoryPart ≠ "" then
          [J.obj [("multi_match", J.obj [("query", J.str accessoryPart), ("fields", jFields ["name.folded^5", "name.morfologik^3"]), ("type", J.str "best_fields"), ("boost", J.num 3)])]]
         else []) ++
        [J.obj [("multi_match", J.obj [("query", J.str modelQuery), ("fields", jFields ["name.folded^3", "name.morfologik^2"]), ("type", J.str "best_fields"), ("boost", J.num 2)])]] ++
        (match modelBrand with
         | some b => [J.obj [("term", J.obj [("brand", J.obj [("value", J.str b), ("boost", J.num 8)])])]]
         | none => [])
      J.obj [("bool", J.obj [("must", J.arr mustClauses), ("should", J.arr shouldClauses)])]
    else
      let hasParams := !(intent.params.isEmpty)
      let textQ := if hasParams then stripParams q else q
      let shouldClauses : List J :=
        [J.obj [("match_phrase", J.obj [("name.morfologik", J.obj [("query", J.str q), ("boost", J.num 50)])])],
         J.obj [("match_phrase", J.obj [("name.morfologik", J.obj [("query", J.str q), ("slop", J.num 2), ("boost", J.num 25)])])],
         J.obj [("match_phrase", J.obj [("model_code", J.obj [("query", J.str q), ("boost", J.num 30)])])]] ++
        (match modelBrand with
         | some b => [J.obj [("term", J.obj [("brand", J.obj [("value", J.str b), ("boost", J.num 15)])])]]
         | none => [])
      J.obj [("bool", J.obj [
        ("must", J.arr [
          J.obj [("multi_match", J.obj [("query", J.str textQ), ("fields", jFields ["name.exact^10", "model_code^8", "name.folded^5", "name.prefix^3"]), ("type", J.str "best_fields"), ("fuzziness", J.num 1), ("prefix_length", J.num 2)])]]),
        ("should", J.arr shouldClauses)])]
  | "BRAND" =>
    let brandNorm := normalizeBrandCase (match intent.brand with | some b => b | none => "")
    J.obj [("bool", J.obj [
      ("should", J.arr [
        J.obj [("term", J.obj [("brand", J.obj [("value", J.str brandNorm), ("boost", J.num 20)])])],
        J.obj [("multi_match", J.obj [("query", J.str q), ("fields", jFields NAME_FIELDS), ("type", J.str "best_fields")])]])])]
  | "COMPOUND" =>
    let brandNorm : Option String :=
      match intent.brand with
      | some b => if b = "" then none else some (normalizeBrandCase b)
      | none => none
    let paramFilters := buildParamFilters intent.params
    let textQuery : String :=
      match intent.textQuery with
      | some t => if t = "" then q else t
      | none => q
    let mustClauses : List J :=
      [J.obj [("term", J.obj [("category", jOptStr intent.detectedCategory)])]] ++
      (if intent.compatibilityMode then
        match intent.compatMounts with
        | some mounts => [J.obj [("terms", J.obj [("compatible_mounts", J.arr (mounts.map J.str))])]]
        | none => []
       else [])
    let shouldClauses : List J :=
      [J.obj [("match_phrase", J.obj [("name.morfologik", J.obj [("query", J.str q), ("slop", J.num 3), ("boost", J.num 20)])])],
       J.obj [("multi_match", J.obj [("query", J.str textQuery), ("fields", jFields NAME_FIELDS), ("type", J.str "best_fields")])]] ++
      (match brandNorm with
       | some b => if !intent.compatibilityMode then [J.obj [("term", J.obj [("brand", J.obj [("value", J.str b), ("boost", J.num 10)])])]] else []
       | none => [])
    J.obj [("bool", J.obj [("must", J.arr mustClauses), ("should", J.arr shouldClauses), ("filter", J.arr paramFilters)])]
  | "PARAMETRIC" =>
    let textPart := stripParams q
    if textPart = "" then J.obj [("match_all", J.obj [])]
    else
      J.obj [("multi_match", J.obj [("query", J.str textPart), ("fields", jFields NAME_FIELDS), ("type", J.str "best_fields"), ("fuzziness", J.str "AUTO"), ("prefix_length", J.num 1)])]
  | "CATEGORY" =>
    let qLower := lowerStr q
    J.obj [("function_score", J.obj [
      ("query", J.obj [("bool", J.obj [
        ("must", J.arr [J.obj [("term", J.obj [("category", jOptStr intent.category)])]]),
        ("should", J.arr [
          J.obj [("multi_match", J.obj [("query", J.str q), ("fields", jFields ["name.folded^3", "name.morfologik^2", "name.stempel^1"]), ("type", J.str "best_fields")])]])])]),
      ("functions", J.arr [
        J.obj [("script_score", J.obj [("script", J.script "category_name_startswith_boost" [("q", J.str qLower)])])],
        J.obj [("script_score", J.obj [("script", J.script "category_subcategory_penalty" [])])]]),
      ("score_mode", J.str "multiply"),
      ("boost_mode", J.str "multiply")])]
  | "PRICE" =>
    let textPart := intent.query
    if textPart = "" || textPart = q then J.obj [("match_all", J.obj [])]
    else
      J.obj [("multi_match", J.obj [("query", J.str textPart), ("fields", jFields NAME_FIELDS), ("type", J.str "best_fields")])]
  | _ =>
    let generalHasParams := !(intent.params.isEmpty)
    let generalTextQ := if generalHasParams then stripParams q else q
    J.obj [("multi_match", J.obj [("query", J.str (if generalTextQ = "" then q else generalTextQ)), ("fields", jFields NAME_FIELDS), ("type", J.str "best_fields"), ("fuzziness", J.str "AUTO"), ("prefix_length", J.num 1)])]

/-- `buildSortClause(sort)` (query-builder.js); the `popular` and `trending`
script sorts are descending script sorts whose painless bodies read
`ga4.popularity_score` (falling back to `sales_30d * 0.1`) and
`ga4.trending_score` (falling back to 0) respectively. -/
def buildSortClause (sort : String) : J :=
  match sort with
  | "price_asc" => J.arr [J.obj [("price", J.str "asc")], J.str "_score"]
  | "price_desc" => J.arr [J.obj [("price", J.str "desc")], J.str "_score"]
  | "newest" => J.arr [J.obj [("created_at", J.str "desc")], J.str "_score"]
  | "popular" => J.arr [
      J.obj [("_script", J.obj [
        ("type", J.str "number"),
        ("script", J.script "popularity_or_sales30d_sort" []),
        ("order", J.str "desc")])],
      J.str "_score"]
  | "trending" => J.arr [
      J.obj [("_script", J.obj [
        ("type", J.str "number"),
        ("script", J.script "ga4_trending_score_sort" []),
        ("order", J.str "desc")])],
      J.str "_score"]
  | _ => J.arr [J.str "_score"]

/-- The `/search` route's `sort` querystring enum
(src/backend/src/routes/search.js, line 20). -/
def searchSortEnum : List String :=
  ["relevance", "price_asc", "price_desc", "newest", "popular"]

/-! ## Ranking assembler (ranking.js, second part of
src/backend/src/services/param-extractor.js dump)

`wrapWithFunctionScore` emits a `function_score` envelope with
`score_mode: multiply, boost_mode: multiply`; the definitions below give
each emitted function's per-document multiplier (a function whose filter
does not match the document contributes the neutral factor 1).  The painless
`Math.log1p` and the Gaussian date decay are abstracted as function
parameters `log1p` and `gaussDecay`; the claims only use that `log1p` is
monotone with `log1p 0 = 0` and that the decay is nonnegative, which hold
for the real functions. -/

/-- Accessory categories, penalized for body queries (`ACCESSORY_CATEGORIES`). -/
def ACCESSORY_CATEGORIES : List String := [
  "Rigi i akcesoria", "Akumulatory", "Ładowarki", "Akcesoria drobne",
  "Osłony", "Torby, plecaki, walizki", "Filtry, pokrywki", "Paski i szelki",
  "Zasilanie", "Zasilacze", "Kable", "Etui", "Czytniki", "Lampy wideo",
  "Wyzwalanie lamp studyjnych", "Slidery", "Monitory podglądowe"]

/-- Core body product categories (`BODY_PRODUCT_CATEGORIES`). -/
def BODY_PRODUCT_CATEGORIES : List String := [
  "Aparaty cyfrowe", "Używane aparaty cyfrowe",
  "Kamery cyfrowe", "Kamery sportowe", "Drony"]

/-- The lens categories boosted for body queries (inline list in the
`isBodyQuery` branch of `wrapWithFunctionScore`). -/
def RELATED_LENS_CATEGORIES : List String := [
  "Obiektywy do bezlusterkowców", "Obiektywy do lustrzanek",
  "Obiektywy do filmowania", "Używane obiektywy"]

/-- Condition weights `(newWeight, usedWeight)` chosen from
`conditionPref`. -/
def conditionWeights (conditionPref : Option String) : Rat × Rat :=
  if conditionPref = some "used" then (0.55, 1.8)
  else if conditionPref = some "new" then (1.5, 0.4)
  else (1.3, 0.55)

/-- `intent?.conditionPref || null`. -/
def intentConditionPref : Option Intent → Option String
  | some i => i.conditionPref
  | none => none

/-- `intent?.isBodyQuery === true`. -/
def intentIsBodyQuery : Option Intent → Bool
  | some i => i.isBodyQuery == some true
  | none => false

/-- `intent?.wantsAccessories === true`. -/
def intentWantsAccessories : Option Intent → Bool
  | some i => i.wantsAccessories
  | none => false

/-- `intent?.type === 'SKU'`. -/
def intentIsSKU : Option Intent → Bool
  | some i => i.type == "SKU"
  | none => false

/-- The document fields read by the scoring functions. -/
structure Doc where
  availability : String
  sales_30d : Rat
  sales_365d : Option Rat
  revenue_30d : Option Rat
  revenue_365d : Option Rat
  ga4_popularity_score : Option Rat
  ga4_conversion_score : Option Rat
  ga4_trending_score : Option Rat
  margin_pct : Rat
  created_at : Rat
  is_promo : Bool
  review_count : Nat
  avg_rating : Rat
  has_image : Bool
  condition : String
  is_bestseller : Bool
  is_highlighted : Bool
  name : String
  category : String
deriving Repr, DecidableEq

/-- Availability filter: in_stock weight 1.5. -/
def inStockBoost (d : Doc) : Rat := if d.availability = "in_stock" then 1.5 else 1

/-- Availability filter: na_zamowienie weight 0.8. -/
def backorderBoost (d : Doc) : Rat := if d.availability = "na_zamowienie" then 0.8 else 1

/-- Availability filter: out_of_stock weight 0.3. -/
def outOfStockBoost (d : Doc) : Rat := if d.availability = "out_of_stock" then 0.3 else 1

/-- 30-day sales script: `s30 > 0 ? 1 + log1p(s30)*0.25 : 1`. -/
def sales30dBoost (log1p : Rat → Rat) (s30 : Rat) : Rat :=
  if 0 < s30 then 1 + log1p s30 * 0.25 else 1

/-- 365-day sales script: `1 + log1p(s365)*0.1` when present and positive. -/
def sales365dBoost (log1p : Rat → Rat) (d : Doc) : Rat :=
  match d.sales_365d with
  | some s => if 0 < s then 1 + log1p s * 0.1 else 1
  | none => 1

/-- Revenue script: 30d revenue, else 365d/12 fallback, then
`1 + log1p(rev)*0.025` when positive. -/
def revenueBoost (log1p : Rat → Rat) (d : Doc) : Rat :=
  let rev : Rat := match d.revenue_30d with | some r => r | none => 0
  let rev : Rat := if rev ≤ 0 then (match d.revenue_365d with | some r => r / 12 | none => rev) else rev
  if 0 < rev then 1 + log1p rev * 0.025 else 1

/-- GA4 popularity script: `1 + popScore*0.008` when present and positive. -/
def popularityBoost (d : Doc) : Rat :=
  match d.ga4_popularity_score with
  | some p => if 0 < p then 1 + p * 0.008 else 1
  | none => 1

/-- GA4 conversion script: `1 + convScore*0.004` when present and positive. -/
def conversionBoost (d : Doc) : Rat :=
  match d.ga4_conversion_score with
  | some p => if 0 < p then 1 + p * 0.004 else 1
  | none => 1

/-- GA4 trending script: `1 + trendScore*0.003` when present and positive. -/
def trendingBoost (d : Doc) : Rat :=
  match d.ga4_trending_score with
  | some p => if 0 < p then 1 + p * 0.003 else 1
  | none => 1

/-- Margin script: `1 + margin_pct * 0.003`. -/
def marginBoost (d : Doc) : Rat := 1 + d.margin_pct * 0.003

/-- Promo filter: weight 1.3. -/
def promoBoost (d : Doc) : Rat := if d.is_promo then 1.3 else 1

/-- Rating script: `review_count >= 3 ? 1 + (avg_rating - 3)*0.1 : 1`. -/
def ratingBoost (d : Doc) : Rat :=
  if 3 ≤ d.review_count then 1 + (d.avg_rating - 3) * 0.1 else 1

/-- No-image filter: weight 0.1. -/
def noImageBoost (d : Doc) : Rat := if d.has_image = false then 0.1 else 1

/-- Condition filter on new documents: dynamic `newWeight`. -/
def conditionNewBoost (cp : Option String) (d : Doc) : Rat :=
  if d.condition = "new" then (conditionWeights cp).1 else 1

/-- Condition filter on used documents: dynamic `usedWeight`. -/
def conditionUsedBoost (cp : Option String) (d : Doc) : Rat :=
  if d.condition = "used" then (conditionWeights cp).2 else 1

/-- Bestseller badge filter: weight 1.15. -/
def bestsellerBoost (d : Doc) : Rat := if d.is_bestseller then 1.15 else 1

/-- Highlighted badge filter: weight 1.1. -/
def highlightedBoost (d : Doc) : Rat := if d.is_highlighted then 1.1 else 1

/-- SKU specificity script (emitted only for SKU intent): inverse name
length steps. -/
def skuSpecificityBoost (isSKU : Bool) (d : Doc) : Rat :=
  if isSKU then
    if d.name.length < 15 then 3
    else if d.name.length < 30 then 2.5
    else if d.name.length < 45 then 1.8
    else if d.name.length < 60 then 1.2
    else 1
  else 1

/-- Category context functions: three body-query entries, or two
accessory-preference entries, or none. -/
def categoryContextBoost (isBody wantsAcc : Bool) (d : Doc) : Rat :=
  if isBody then
    (if d.category ∈ BODY_PRODUCT_CATEGORIES then 8 else 1) *
    (if d.category ∈ RELATED_LENS_CATEGORIES then 3 else 1) *
    (if d.category ∈ ACCESSORY_CATEGORIES then 0.08 else 1)
  else if wantsAcc then
    (if d.category ∈ ACCESSORY_CATEGORIES then 5 else 1) *
    (if d.category ∈ BODY_PRODUCT_CATEGORIES then 0.1 else 1)
  else 1

/-- Total multiplicative score of the `wrapWithFunctionScore` envelope:
the base relevance times every emitted function's multiplier, in the
source's `functions` array order. -/
def rankScore (intent : Option Intent) (log1p gaussDecay : Rat → Rat) (base : Rat) (d : Doc) : Rat :=
  base * inStockBoost d * backorderBoost d * outOfStockBoost d *
  sales30dBoost log1p d.sales_30d * sales365dBoost log1p d * revenueBoost log1p d *
  popularityBoost d * conversionBoost d * trendingBoost d * marginBoost d *
  gaussDecay d.created_at * promoBoost d * ratingBoost d * noImageBoost d *
  conditionNewBoost (intentConditionPref intent) d *
  conditionUsedBoost (intentConditionPref intent) d *
  bestsellerBoost d * highlightedBoost d *
  skuSpecificityBoost (intentIsSKU intent) d *
  categoryContextBoost (intentIsBodyQuery intent) (intentWantsAccessories intent) d

/-! ## Zero-results recovery cascade (src/unnamed/part_004, zero-results.js)

The Elasticsearch transport is an oracle from requests to results; a request
carries the data that determines the body the source builds at that call
site (`buildSpellCheckQuery(q)`; `wrapWithFunctionScore` over
`buildSearchQuery(q, GENERAL, options)`; the inline category-fallback body;
the inline bestsellers body).  A thrown `es.search` is `Except.error ()`. -/

/-- Options threaded through the cascade (the route's
`{ filters, page, perPage, sort }`). -/
structure SearchOptions where
  filters : List (String × String) := []
  page : Nat := 1
  perPage : Nat := 20
  sort : String := "relevance"
deriving Repr, DecidableEq

/-- The four request shapes the cascade issues. -/
inductive ESReq where
  | spellCheck (q : String)
  | generalSearch (q : String) (opts : SearchOptions)
  | categoryTop (category : String)
  | bestsellersTop
deriving Repr, DecidableEq

/-- One phrase-suggestion option (`{text, score}`). -/
structure SuggestChoice where
  text : String
  score : Rat
deriving Repr, DecidableEq

/-- One entry of `result.suggest.spell_check`. -/
structure SuggestEntry where
  options : List SuggestChoice
deriving Repr, DecidableEq

/-- An index search result: total hits, hit list (product handles),
aggregations presence, suggestion entries. -/
structure ESResult where
  total : Nat
  hits : List Nat
  aggs : Option Nat := none
  suggest : Option (List SuggestEntry) := none
deriving Repr, DecidableEq

/-- The index transport oracle. -/
def ES := ESReq → Except Unit ESResult

/-- `RecoveryOutcome`. -/
structure RecoveryOutcome where
  products : List Nat
  total : Nat
  aggregations : Option Nat
  didYouMean : Option String
  fallbackType : String
  relaxedQuery : Option String := none
  fallbackCategory : Option String := none
deriving Repr, DecidableEq

/-- `trySpellCorrection(es, query)`: its own failures are caught; the top
suggestion is accepted only with score above 0.5 and text differing from
the query. -/
def trySpellCorrection (es : ES) (query : String) : Option SuggestChoice :=
  match es (.spellCheck query) with
  | .error _ => none
  | .ok result =>
    match result.suggest with
    | some (entry :: _) =>
      match entry.options with
      | best :: _ =>
        if (1 : Rat)/2 < best.score ∧ best.text ≠ query then some best else none
      | [] => none
    | _ => none

/-- The relaxation loop of `tryQueryRelaxation` over the successive drop
counts (`for (let drop = 1; drop < words.length; drop++)` iterates over
`[1, ..., words.length - 1]`): join the first `words.length - drop` words
and search; empty prefixes are skipped, per-iteration failures are caught
and skipped. -/
def relaxGo (es : ES) (words : List String) (opts : SearchOptions) : List Nat → Option RecoveryOutcome
  | [] => none
  | drop :: drops =>
    let relaxed := String.intercalate " " (words.take (words.length - drop))
    if relaxed = "" then relaxGo es words opts drops
    else
      match es (.generalSearch relaxed opts) with
      | .error _ => relaxGo es words opts drops
      | .ok result =>
        if 0 < result.total then
          some { products := result.hits, total := result.total,
                 aggregations := result.aggs, didYouMean := none,
                 fallbackType := "query_relaxation", relaxedQuery := some relaxed }
        else relaxGo es words opts drops

/-- `tryQueryRelaxation(es, query, options)`. -/
def tryQueryRelaxation (es : ES) (query : String) (opts : SearchOptions) : Option RecoveryOutcome :=
  let words := splitWs query
  if words.length ≤ 1 then none
  else relaxGo es words opts (List.range' 1 (words.length - 1))

/-- `tryCategoryFallback(es, category)`: failures caught, only a non-empty
result is returned. -/
def tryCategoryFallback (es : ES) (category : String) : Option RecoveryOutcome :=
  match es (.categoryTop category) with
  | .error _ => none
  | .ok result =>
    if 0 < result.total then
      some { products := result.hits, total := result.total,
             aggregations := none, didYouMean := none,
             fallbackType := "category_fallback", fallbackCategory := some category }
    else none

/-- `getBestsellers(es)`: cannot fail; an index error degrades to
`fallbackType: error` with an empty product list. -/
def getBestsellers (es : ES) : RecoveryOutcome :=
  match es .bestsellersTop with
  | .error _ =>
    { products := [], total := 0, aggregations := none,
      didYouMean := none, fallbackType := "error" }
  | .ok result =>
    { products := result.hits, total := result.total, aggregations := none,
      didYouMean := none, fallbackType := "bestsellers" }

/-- `recoverZeroResults(es, originalQuery, intent, options)`.  Note that the
re-run of the corrected query in step 1 is NOT wrapped in try/catch in the
source, so its index error propagates (`Except.error`). -/
def recoverZeroResults (es : ES) (originalQuery : String) (intent : Intent) (opts : SearchOptions) : Except Unit RecoveryOutcome :=
  let steps234 : Except Unit RecoveryOutcome :=
    match tryQueryRelaxation es originalQuery opts with
    | some relaxedResult => .ok relaxedResult
    | none =>
      if intent.type = "CATEGORY" then
        match intent.category with
        | some c =>
          if c ≠ "" then
            match tryCategoryFallback es c with
            | some catResult => .ok catResult
            | none => .ok (getBestsellers es)
          else .ok (getBestsellers es)
        | none => .ok (getBestsellers es)
      else .ok (getBestsellers es)
  match trySpellCorrection es originalQuery with
  | some spellResult =>
    let correctedQuery := spellResult.text
    match es (.generalSearch correctedQuery opts) with
    | .error e => .error e
    | .ok result =>
      if 0 < result.total then
        .ok { products := result.hits, total := result.total,
              aggregations := result.aggs, didYouMean := some correctedQuery,
              fallbackType := "spell_correction" }
      else steps234
  | none => steps234

/-! ## Theorems -/

/-- C6: `classifyIntent("eos r6 akumulator")` returns a MODEL intent with the
brand inferred as canon (no explicit brand word appears), with
`wantsAccessories = true` forcing `isBodyQuery = false`, with
`accessoryCategory` mapped from "akumulator" to "Akumulatory", and with
`modelQuery` equal to "eos r6" (accessory/condition modifier words
stripped). -/
theorem classify_eos_r6_akumulator :
    classifyIntent "eos r6 akumulator" =
      { type := "MODEL", query := "eos r6 akumulator", conditionPref := none,
        wantsAccessories := true, accessoryCategory := some "Akumulatory",
        modelQuery := some "eos r6", brand := some "canon",
        isBodyQuery := some false } := by
  decide

/-- C7 counterexample: stripping all parameter spans from
"70-200mm f/2.8 24MP" does NOT yield a parameter-free residual: the residual
is "24MP" (nonempty), and the extractor still recognizes a megapixels
parameter in it, because `stripParams` has no megapixels pattern. -/
theorem stripParams_24MP_residual :
    stripParams "70-200mm f/2.8 24MP" = "24MP" ∧
    "24MP" ≠ "" ∧
    (extractParams "24MP").map Prod.fst = ["params.megapixels"] := by
  refine ⟨by decide, by decide, by decide⟩

/-- C7 amended: stripping the parameter spans of "70-200mm f/2.8 24MP"
removes the focal-range and aperture spans (the patterns `stripParams`
covers: aperture, focal, resolution, fps, sensor, mount) but not the
megapixels token, leaving exactly the residual "24MP"; on the full input the
extractor recognizes aperture, focal bounds and megapixels, and the
megapixels field is the one whose span survives stripping. -/
theorem stripParams_24MP_amended :
    stripParams "70-200mm f/2.8 24MP" = "24MP" ∧
    (extractParams "70-200mm f/2.8 24MP").map Prod.fst =
      ["params.aperture", "params.focal_length_min", "params.focal_length_max",
       "params.megapixels"] ∧
    (extractParams (stripParams "70-200mm f/2.8 24MP")).map Prod.fst =
      ["params.megapixels"] := by
  refine ⟨by decide, by decide, by decide⟩

/-- C9 counterexample: the `/search` route's sort enum does not contain
"trending" and is not the six-value enum the claim states (it has exactly
five values). -/
theorem searchSortEnum_no_trending :
    "trending" ∉ searchSortEnum ∧
    searchSortEnum ≠
      ["relevance", "price_asc", "price_desc", "newest", "popular", "trending"] := by
  decide

/-- C9 amended: the `/search` route accepts exactly the five sort values
relevance, price_asc, price_desc, newest and popular, while the query
builder produces a sort clause for each of the non-relevance values and
additionally for "trending" (a descending script sort on the GA4 trending
score); "relevance" and unknown values sort by score only. -/
theorem sortEnum_five_and_clauses :
    searchSortEnum = ["relevance", "price_asc", "price_desc", "newest", "popular"] ∧
    buildSortClause "price_asc" = J.arr [J.obj [("price", J.str "asc")], J.str "_score"] ∧
    buildSortClause "price_desc" = J.arr [J.obj [("price", J.str "desc")], J.str "_score"] ∧
    buildSortClause "newest" = J.arr [J.obj [("created_at", J.str "desc")], J.str "_score"] ∧
    buildSortClause "popular" = J.arr [
      J.obj [("_script", J.obj [("type", J.str "number"),
        ("script", J.script "popularity_or_sales30d_sort" []),
        ("order", J.str "desc")])], J.str "_score"] ∧
    buildSortClause "trending" = J.arr [
      J.obj [("_script", J.obj [("type", J.str "number"),
        ("script", J.script "ga4_trending_score_sort" []),
        ("order", J.str "desc")])], J.str "_score"] ∧
    buildSortClause "relevance" = J.arr [J.str "_score"] := by
  exact ⟨by decide, rfl, rfl, rfl, rfl, rfl, rfl⟩

/-- C4: the ranking assembler's condition weights as a function of any
intent's `conditionPref`: (0.55, 1.8) for used, (1.5, 0.4) for new,
(1.3, 0.55) otherwise, and the weights strictly invert between the two
explicit preferences. -/
theorem conditionWeights_spec :
    (∀ i : Intent, i.conditionPref = some "used" →
      conditionWeights (intentConditionPref (some i)) = (0.55, 1.8)) ∧
    (∀ i : Intent, i.conditionPref = some "new" →
      conditionWeights (intentConditionPref (some i)) = (1.5, 0.4)) ∧
    (∀ i : Intent, i.conditionPref ≠ some "used" → i.conditionPref ≠ some "new" →
      conditionWeights (intentConditionPref (some i)) = (1.3, 0.55)) ∧
    (conditionWeights (some "used")).1 < (conditionWeights (some "used")).2 ∧
    (conditionWeights (some "new")).2 < (conditionWeights (some "new")).1 := by
  refine ⟨?_, ?_, ?_, ?_, ?_⟩
  · intro i h; simp [intentConditionPref, conditionWeights, h]
  · intro i h; simp [intentConditionPref, conditionWeights, h]
  · intro i h1 h2; simp [intentConditionPref, conditionWeights, h1, h2]
  · have h : conditionWeights (some "used") = (0.55, 1.8) := by simp [conditionWeights]
    rw [h]; norm_num
  · have h : conditionWeights (some "new") = (1.5, 0.4) := by simp [conditionWeights]
    rw [h]; norm_num

/-- C4 witness: evaluating the weight function at concrete preferences. -/
theorem conditionWeights_spec_witness :
    conditionWeights (intentConditionPref (some { type := "GENERAL", query := "x" })) = (1.3, 0.55) :=
  conditionWeights_spec.2.2.1 { type := "GENERAL", query := "x" }
    (by simp) (by simp)

/-- C10: for a GENERAL-intent query whose extracted parameters are present
and whose parameter-stripped residual is empty, the builder falls back to
the original query text in its fuzzy multi-field match — never an
empty-string match and never match-everything; only the PARAMETRIC branch
returns `match_all` on an empty residual. -/
theorem general_fallback_to_original (q : String) (i : Intent)
    (h1 : i.type = "GENERAL") (h2 : i.params ≠ []) (h3 : stripParams q = "")
    (h4 : q ≠ "") :
    buildIntentQuery q i =
      J.obj [("multi_match", J.obj [("query", J.str q),
        ("fields", jFields NAME_FIELDS), ("type", J.str "best_fields"),
        ("fuzziness", J.str "AUTO"), ("prefix_length", J.num 1)])] ∧
    buildIntentQuery q i ≠ J.obj [("match_all", J.obj [])] ∧
    q ≠ "" ∧
    (∀ i2 : Intent, i2.type = "PARAMETRIC" →
      buildIntentQuery q i2 = J.obj [("match_all", J.obj [])]) := by
  have hmm : buildIntentQuery q i =
      J.obj [("multi_match", J.obj [("query", J.str q),
        ("fields", jFields NAME_FIELDS), ("type", J.str "best_fields"),
        ("fuzziness", J.str "AUTO"), ("prefix_length", J.num 1)])] := by
    simp [buildIntentQuery, h1, h3, h2]
  refine ⟨hmm, ?_, h4, ?_⟩
  · rw [hmm]; simp
  · intro i2 h5; simp [buildIntentQuery, h5, h3]

/-- C10 witness: the query "50mm" extracts focal-length parameters, strips
to an empty residual, and the GENERAL branch emits the original text. -/
theorem general_fallback_to_original_witness :
    buildIntentQuery "50mm"
        { type := "GENERAL", query := "50mm", params := extractParams "50mm" } =
      J.obj [("multi_match", J.obj [("query", J.str "50mm"),
        ("fields", jFields NAME_FIELDS), ("type", J.str "best_fields"),
        ("fuzziness", J.str "AUTO"), ("prefix_length", J.num 1)])] :=
  (general_fallback_to_original "50mm"
    { type := "GENERAL", query := "50mm", params := extractParams "50mm" }
    rfl (by decide) (by decide) (by decide)).1

/-- A letter is not regex whitespace. -/
theorem ws_false_of_letter {c : Char} (h : isLetterChar c = true) : isWsChar c = false := by
  simp only [isLetterChar, Bool.or_eq_true, Bool.and_eq_true, decide_eq_true_eq] at h
  simp only [isWsChar, Bool.or_eq_false_iff, Bool.and_eq_false_iff,
    decide_eq_false_iff_not]
  omega

/-- A digit is not regex whitespace. -/
theorem ws_false_of_digit {c : Char} (h : isDigitChar c = true) : isWsChar c = false := by
  simp only [isDigitChar, Bool.and_eq_true, decide_eq_true_eq] at h
  simp only [isWsChar, Bool.or_eq_false_iff, Bool.and_eq_false_iff,
    decide_eq_false_iff_not]
  omega

/-- A letter is not a digit. -/
theorem digit_false_of_letter {c : Char} (h : isLetterChar c = true) : isDigitChar c = false := by
  simp only [isLetterChar, Bool.or_eq_true, Bool.and_eq_true, decide_eq_true_eq] at h
  simp only [isDigitChar, Bool.and_eq_false_iff, decide_eq_false_iff_not]
  omega

/-- An alphanumeric is not regex whitespace. -/
theorem ws_false_of_alnum {c : Char} (h : isAlnumChar c = true) : isWsChar c = false := by
  simp only [isAlnumChar, Bool.or_eq_true] at h
  rcases h with h | h
  · exact ws_false_of_letter h
  · exact ws_false_of_digit h

/-- dropWhile is the identity when no element satisfies the predicate. -/
theorem dropWhile_id_of_false {p : Char → Bool} :
    ∀ {cs : List Char}, (∀ c ∈ cs, p c = false) → cs.dropWhile p = cs := by
  intro cs h
  cases cs with
  | nil => rfl
  | cons c t =>
    rw [List.dropWhile_cons]
    simp [h c (List.mem_cons_self c t)]

/-- Trimming a string with no whitespace characters is the identity. -/
theorem jsTrimChars_eq_self {cs : List Char} (h : ∀ c ∈ cs, isWsChar c = false) :
    jsTrimChars cs = cs := by
  unfold jsTrimChars
  rw [dropWhile_id_of_false h,
    dropWhile_id_of_false (fun c hc => h c (List.mem_reverse.mp hc)),
    List.reverse_reverse]

/-- An all-alphanumeric suffix containing a digit satisfies the
letters-then-digit scan. -/
theorem lettersThenDigit_of :
    ∀ {R : List Char}, (∀ c ∈ R, isAlnumChar c = true) →
      (∃ c ∈ R, isDigitChar c = true) → lettersThenDigit R = true := by
  intro R hall hex
  induction R with
  | nil => rcases hex with ⟨c, hc, _⟩; cases hc
  | cons c t ih =>
    unfold lettersThenDigit
    by_cases hd : isDigitChar c = true
    · simp [hd]
    · have hcall := hall c (List.mem_cons_self c t)
      simp only [isAlnumChar, Bool.or_eq_true] at hcall
      have hl : isLetterChar c = true := by
        rcases hcall with h | h
        · exact h
        · exact absurd h hd
      simp only [hd, hl, if_false, if_true]
      apply ih
      · intro x hx; exact hall x (List.mem_cons_of_mem c hx)
      · rcases hex with ⟨x, hx, hdx⟩
        rcases List.mem_cons.mp hx with rfl | hx'
        · exact absurd hdx hd
        · exact ⟨x, hx', hdx⟩

/-- C5: every string of the manufacturer-code shape — 2 to 4 letters, a
separator ('-' or '_'), then an alphanumeric suffix containing at least one
digit — is classified as SKU.  The quantification is over all such strings,
including ones whose suffix embeds brand, category, parametric or price
material, which captures the rule's precedence over the later cascade rules
(only the EAN rule runs earlier, and it cannot match a string that starts
with a letter). -/
theorem sku_shape_classified_sku (L : List Char) (sep : Char) (R : List Char)
    (hL2 : 2 ≤ L.length) (hL4 : L.length ≤ 4)
    (hLall : ∀ c ∈ L, isLetterChar c = true)
    (hsep : sep = '-' ∨ sep = '_')
    (hR : ∀ c ∈ R, isAlnumChar c = true)
    (hRd : ∃ c ∈ R, isDigitChar c = true) :
    (classifyIntent (String.mk (L ++ sep :: R))).type = "SKU" := by
  have hnws : ∀ c ∈ L ++ sep :: R, isWsChar c = false := by
    intro c hc
    rcases List.mem_append.mp hc with hL | hRm
    · exact ws_false_of_letter (hLall c hL)
    · rcases List.mem_cons.mp hRm with rfl | hR'
      · rcases hsep with rfl | rfl <;> decide
      · exact ws_false_of_alnum (hR c hR')
  have htrim : jsTrim (String.mk (L ++ sep :: R)) = String.mk (L ++ sep :: R) :=
    congrArg String.mk (jsTrimChars_eq_self hnws)
  have hean : eanTest (String.mk (L ++ sep :: R)) = false := by
    obtain ⟨c0, L', rfl⟩ : ∃ c0 L', L = c0 :: L' := by
      cases L with
      | nil => simp at hL2
      | cons a b => exact ⟨a, b, rfl⟩
    have hc0 : isDigitChar c0 = false :=
      digit_false_of_letter (hLall c0 (List.mem_cons_self c0 L'))
    simp [eanTest, hc0]
  have hsku : skuTest (String.mk (L ++ sep :: R)) = true := by
    unfold skuTest
    apply List.any_eq_true.mpr
    refine ⟨L.length, ?_, ?_⟩
    · have : L.length = 2 ∨ L.length = 3 ∨ L.length = 4 := by omega
      rcases this with h | h | h <;> simp [h]
    · unfold skuTestAt
      rw [show (String.mk (L ++ sep :: R)).data = L ++ sep :: R from rfl,
        List.take_left, List.drop_left]
      have h1 : L.all isLetterChar = true := List.all_eq_true.mpr hLall
      have h2 : (sep == '-' || sep == '_') = true := by
        rcases hsep with rfl | rfl <;> decide
      simp [h1, h2, lettersThenDigit_of hR hRd]
  simp [classifyIntent, htrim, hean, hsku]

/-- C5 witness: the concrete manufacturer code "LP-E6NH". -/
theorem sku_shape_classified_sku_witness :
    (classifyIntent (String.mk (['L', 'P'] ++ '-' :: ['E', '6', 'N', 'H']))).type = "SKU" :=
  sku_shape_classified_sku ['L', 'P'] '-' ['E', '6', 'N', 'H']
    (by decide) (by decide) (by decide) (Or.inl rfl) (by decide)
    ⟨'6', by decide, by decide⟩

/-- C8: intent classification is a total function of the input text and the
static dictionaries: every input (including empty or whitespace-only text)
yields exactly one intent whose type is one of the eight variants, the
condition preference and accessory preference are attached to every
variant, and unmatched text falls through to GENERAL (totality and freedom
from exceptions hold because `classifyIntent` is a well-defined Lean
function covering all branches). -/
theorem classifyIntent_total :
    (∀ s : String,
      (classifyIntent s).type ∈
        (["EAN", "SKU", "MODEL", "BRAND", "PARAMETRIC", "CATEGORY", "PRICE", "GENERAL"] : List String)) ∧
    (∀ s : String,
      (classifyIntent s).conditionPref = detectConditionPreference (jsTrim s) ∧
      (classifyIntent s).wantsAccessories = detectAccessoryPreference (jsTrim s)) ∧
    (classifyIntent "").type = "GENERAL" ∧
    (classifyIntent "   ").type = "GENERAL" := by
  refine ⟨?_, ?_, by decide, by decide⟩
  · intro s
    simp only [classifyIntent]
    repeat' split
    all_goals (first | rfl | decide | simp)
  · intro s
    simp only [classifyIntent]
    repeat' split
    all_goals (first | rfl | decide | simp)

/-- The relaxed prefix attempted at drop count `d`: the first
`words.length - d` words joined by single spaces.  Since the drop count
increases along the loop, the attempted prefixes have strictly decreasing
word counts. -/
def relaxedAt (words : List String) (d : Nat) : String :=
  String.intercalate " " (words.take (words.length - d))

/-- Drop count `d` does not produce hits: its prefix is empty (skipped), or
its search succeeds with zero total. -/
def relaxMiss (es : ES) (words : List String) (opts : SearchOptions) (d : Nat) : Prop :=
  relaxedAt words d = "" ∨
  ∃ r, es (.generalSearch (relaxedAt words d) opts) = .ok r ∧ r.total = 0

/-- The spell-correction state yields nothing: either no viable suggestion,
or the corrected query's search succeeds with zero hits. -/
def spellStepNoHit (es : ES) (q : String) (opts : SearchOptions) : Prop :=
  match trySpellCorrection es q with
  | none => True
  | some s => ∃ r, es (.generalSearch s.text opts) = .ok r ∧ r.total = 0

/-- If every drop count in the list misses, the relaxation loop fails. -/
theorem relaxGo_none (es : ES) (words : List String) (opts : SearchOptions) :
    ∀ drops, (∀ d ∈ drops, relaxMiss es words opts d) →
      relaxGo es words opts drops = none := by
  intro drops
  induction drops with
  | nil => intro _; rfl
  | cons d ds ih =>
    intro h
    have htail : ∀ x ∈ ds, relaxMiss es words opts x :=
      fun x hx => h x (List.mem_cons_of_mem d hx)
    simp only [relaxGo]
    by_cases hX : relaxedAt words d = ""
    · unfold relaxedAt at hX
      rw [if_pos hX]
      exact ih htail
    · have hm := h d (List.mem_cons_self d ds)
      rcases hm with he | ⟨r, hr, hr0⟩
      · exact absurd he hX
      · unfold relaxedAt at hX hr
        rw [if_neg hX]
        simp only [hr]
        rw [if_neg (show ¬ (0 < r.total) by omega)]
        exact ih htail

/-- If every drop count before `k` in the list misses and `k` hits, the
relaxation loop stops at `k` and returns the query-relaxation outcome. -/
theorem relaxGo_first (es : ES) (words : List String) (opts : SearchOptions)
    (k : Nat) (rk : ESResult)
    (hne : relaxedAt words k ≠ "")
    (hes : es (.generalSearch (relaxedAt words k) opts) = .ok rk)
    (hpos : 0 < rk.total) :
    ∀ pre tail, (∀ d ∈ pre, relaxMiss es words opts d) →
      relaxGo es words opts (pre ++ k :: tail) =
        some { products := rk.hits, total := rk.total, aggregations := rk.aggs,
               didYouMean := none, fallbackType := "query_relaxation",
               relaxedQuery := some (relaxedAt words k) } := by
  unfold relaxedAt at hne hes ⊢
  intro pre
  induction pre with
  | nil =>
    intro tail _
    rw [List.nil_append]
    simp only [relaxGo]
    rw [if_neg hne]
    simp only [hes]
    rw [if_pos hpos]
  | cons d ds ih =>
    intro tail h
    have htail : ∀ x ∈ ds, relaxMiss es words opts x :=
      fun x hx => h x (List.mem_cons_of_mem d hx)
    rw [List.cons_append]
    simp only [relaxGo]
    by_cases hX : relaxedAt words d = ""
    · unfold relaxedAt at hX
      rw [if_pos hX]
      exact ih tail htail
    · have hm := h d (List.mem_cons_self d ds)
      rcases hm with he | ⟨r, hr, hr0⟩
      · exact absurd he hX
      · unfold relaxedAt at hX hr
        rw [if_neg hX]
        simp only [hr]
        rw [if_neg (show ¬ (0 < r.total) by omega)]
        exact ih tail htail

/-- Splitting a `range'` at an element. -/
theorem range'_split : ∀ (n s k : Nat), s ≤ k → k < s + n →
    List.range' s n = List.range' s (k - s) ++ k :: List.range' (k + 1) (n - (k - s) - 1) := by
  intro n
  induction n with
  | zero => intro s k h1 h2; exact absurd h2 (by omega)
  | succ m ih =>
    intro s k h1 h2
    by_cases hsk : s = k
    · subst hsk
      rw [show s - s = 0 from by omega, show m + 1 - 0 - 1 = m from by omega]
      rfl
    · rw [show List.range' s (m + 1) = s :: List.range' (s + 1) m from rfl]
      have hks : k - s = (k - (s + 1)) + 1 := by omega
      rw [hks,
        show List.range' s ((k - (s + 1)) + 1) = s :: List.range' (s + 1) (k - (s + 1)) from rfl,
        List.cons_append]
      congr 1
      rw [show m + 1 - ((k - (s + 1)) + 1) - 1 = m - (k - (s + 1)) - 1 from by omega]
      exact ih (s + 1) k (by omega) (by omega)

/-- C2: order of the zero-results cascade.  Whenever the spell-correction
state yields nothing, then: (a) if every relaxation drop count misses and
the intent is not CATEGORY, the cascade ends at the bestsellers state with
`fallbackType = "bestsellers"` built from the bestsellers search; and
(b) if all drop counts below `k` miss and `k` (dropping the trailing `k`
words, i.e. the prefixes are attempted in strictly decreasing word-count
order) yields at least one hit, the cascade terminates at `k` with
`fallbackType = "query_relaxation"` and `relaxedQuery` equal to that
prefix. -/
theorem recovery_cascade_order (es : ES) (q : String) (intent : Intent)
    (opts : SearchOptions) (hspell : spellStepNoHit es q opts) :
    ((∀ d, 1 ≤ d → d < (splitWs q).length → relaxMiss es (splitWs q) opts d) →
      intent.type ≠ "CATEGORY" →
      ∀ rb, es .bestsellersTop = .ok rb →
        recoverZeroResults es q intent opts =
          .ok { products := rb.hits, total := rb.total, aggregations := none,
                didYouMean := none, fallbackType := "bestsellers" }) ∧
    (∀ k rk, 1 ≤ k → k < (splitWs q).length →
      (∀ d, 1 ≤ d → d < k → relaxMiss es (splitWs q) opts d) →
      relaxedAt (splitWs q) k ≠ "" →
      es (.generalSearch (relaxedAt (splitWs q) k) opts) = .ok rk →
      0 < rk.total →
      recoverZeroResults es q intent opts =
        .ok { products := rk.hits, total := rk.total, aggregations := rk.aggs,
              didYouMean := none, fallbackType := "query_relaxation",
              relaxedQuery := some (relaxedAt (splitWs q) k) }) := by
  have hred : recoverZeroResults es q intent opts =
      (match tryQueryRelaxation es q opts with
       | some relaxedResult => .ok relaxedResult
       | none =>
         if intent.type = "CATEGORY" then
           match intent.category with
           | some c =>
             if c ≠ "" then
               match tryCategoryFallback es c with
               | some catResult => .ok catResult
               | none => .ok (getBestsellers es)
             else .ok (getBestsellers es)
           | none => .ok (getBestsellers es)
         else .ok (getBestsellers es)) := by
    unfold spellStepNoHit at hspell
    simp only [recoverZeroResults]
    rcases hm : trySpellCorrection es q with _ | s
    · simp only [hm]
    · rw [hm] at hspell
      obtain ⟨r, hr, h0⟩ := hspell
      simp only [hm, hr]
      rw [if_neg (show ¬ (0 < r.total) by omega)]
  constructor
  · intro hall hcat rb hrb
    rw [hred]
    have hrel : tryQueryRelaxation es q opts = none := by
      simp only [tryQueryRelaxation]
      by_cases hlen : (splitWs q).length ≤ 1
      · rw [if_pos hlen]
      · rw [if_neg hlen]
        apply relaxGo_none
        intro d hd
        have hmem := List.mem_range'_1.mp hd
        exact hall d hmem.1 (by omega)
    simp only [hrel]
    rw [if_neg hcat]
    unfold getBestsellers
    simp only [hrb]
  · intro k rk hk1 hkn hmiss hne hes hpos
    rw [hred]
    have hrel : tryQueryRelaxation es q opts =
        some { products := rk.hits, total := rk.total, aggregations := rk.aggs,
               didYouMean := none, fallbackType := "query_relaxation",
               relaxedQuery := some (relaxedAt (splitWs q) k) } := by
      simp only [tryQueryRelaxation]
      rw [if_neg (show ¬ ((splitWs q).length ≤ 1) by omega)]
      rw [range'_split ((splitWs q).length - 1) 1 k (by omega) (by omega)]
      apply relaxGo_first es (splitWs q) opts k rk hne hes hpos
      intro d hd
      have hmem := List.mem_range'_1.mp hd
      exact hmiss d hmem.1 (by omega)
    simp only [hrel]

/-- Oracle for the C2 witness: no spell suggestion; the first relaxation
prefix "a b" of the query "a b c" has one hit; everything else is empty. -/
def esRelaxHit : ES := fun r =>
  match r with
  | .spellCheck _ => .ok { total := 0, hits := [] }
  | .generalSearch "a b" _ => .ok { total := 1, hits := [7] }
  | .generalSearch _ _ => .ok { total := 0, hits := [] }
  | .categoryTop _ => .ok { total := 0, hits := [] }
  | .bestsellersTop => .ok { total := 3, hits := [1, 2, 3] }

/-- C2 witness: for "a b c" under `esRelaxHit`, the cascade terminates at
the first relaxation prefix "a b". -/
theorem recovery_cascade_order_witness :
    recoverZeroResults esRelaxHit "a b c" { type := "GENERAL", query := "a b c" } {} =
      .ok { products := [7], total := 1, aggregations := none,
            didYouMean := none, fallbackType := "query_relaxation",
            relaxedQuery := some "a b" } :=
  (recovery_cascade_order esRelaxHit "a b c" { type := "GENERAL", query := "a b c" } {}
    (by unfold spellStepNoHit trySpellCorrection esRelaxHit; exact trivial)).2
    1 { total := 1, hits := [7] } (by omega) (by decide)
    (fun d h1 h2 => absurd h1 (by omega))
    (by decide) rfl (by decide)

/-- Oracle exhibiting the uncaught error: the phrase suggester returns a
viable suggestion ("canon", score 1 > 0.5, differing from the query), and
every general search — in particular the re-run of the corrected query —
throws. -/
def esSpellBoom : ES := fun r =>
  match r with
  | .spellCheck _ =>
    .ok { total := 0, hits := [], suggest := some [⟨[⟨"canon", 1⟩]⟩] }
  | .generalSearch _ _ => .error ()
  | .categoryTop _ => .ok { total := 0, hits := [] }
  | .bestsellersTop => .ok { total := 0, hits := [] }

/-- C1: the cascade does NOT catch every in-state index failure.  When the
spell-correction state accepts a suggestion and the follow-up search for the
corrected query throws (source line 29 of zero-results.js, outside any
try/catch), `recoverZeroResults` propagates the error to the caller instead
of falling through to the next state — contradicting the claim.  The
bestsellers half of the claim does hold: `getBestsellers` always returns a
`RecoveryOutcome`, degrading to `fallbackType = "error"` on failure. -/
theorem spell_rerun_error_propagates :
    recoverZeroResults esSpellBoom "kanon" { type := "GENERAL", query := "kanon" } {} =
      .error () ∧
    (∀ es : ES, (getBestsellers es).fallbackType = "bestsellers" ∨
      (getBestsellers es).fallbackType = "error") ∧
    getBestsellers (fun _ => .error ()) =
      { products := [], total := 0, aggregations := none,
        didYouMean := none, fallbackType := "error" } := by
  refine ⟨?_, ?_, rfl⟩
  · have hs : trySpellCorrection esSpellBoom "kanon" = some ⟨"canon", 1⟩ := by
      unfold trySpellCorrection esSpellBoom
      dsimp only
      rw [if_pos (⟨by norm_num, by decide⟩ : (1 : Rat)/2 < 1 ∧ ("canon" : String) ≠ "kanon")]
    simp only [recoverZeroResults, hs]
    rfl
  · intro es
    unfold getBestsellers
    rcases es .bestsellersTop with e | r <;> simp

/-- The in-stock factor is nonnegative. -/
theorem inStockBoost_nonneg (d : Doc) : 0 ≤ inStockBoost d := by
  unfold inStockBoost; split <;> norm_num

/-- The backorder factor is nonnegative. -/
theorem backorderBoost_nonneg (d : Doc) : 0 ≤ backorderBoost d := by
  unfold backorderBoost; split <;> norm_num

/-- The out-of-stock factor is nonnegative. -/
theorem outOfStockBoost_nonneg (d : Doc) : 0 ≤ outOfStockBoost d := by
  unfold outOfStockBoost; split <;> norm_num

/-- The 30-day sales factor is nonnegative for monotone `log1p` vanishing
at 0. -/
theorem sales30dBoost_nonneg (log1p : Rat → Rat) (hm : Monotone log1p)
    (h0 : log1p 0 = 0) (s : Rat) : 0 ≤ sales30dBoost log1p s := by
  unfold sales30dBoost
  split
  · rename_i h
    have h1 : log1p 0 ≤ log1p s := hm (le_of_lt h)
    rw [h0] at h1
    linarith
  · norm_num

/-- The 365-day sales factor is nonnegative. -/
theorem sales365dBoost_nonneg (log1p : Rat → Rat) (hm : Monotone log1p)
    (h0 : log1p 0 = 0) (d : Doc) : 0 ≤ sales365dBoost log1p d := by
  unfold sales365dBoost
  split
  · rename_i s _
    split
    · rename_i h
      have h1 : log1p 0 ≤ log1p s := hm (le_of_lt h)
      rw [h0] at h1
      linarith
    · norm_num
  · norm_num

/-- The revenue factor is nonnegative. -/
theorem revenueBoost_nonneg (log1p : Rat → Rat) (hm : Monotone log1p)
    (h0 : log1p 0 = 0) (d : Doc) : 0 ≤ revenueBoost log1p d := by
  have gen : ∀ R : Rat, 0 ≤ (if 0 < R then 1 + log1p R * 0.025 else 1) := by
    intro R
    split
    · rename_i h
      have h1 : log1p 0 ≤ log1p R := hm (le_of_lt h)
      rw [h0] at h1
      linarith
    · norm_num
  unfold revenueBoost
  exact gen _

/-- The popularity factor is nonnegative. -/
theorem popularityBoost_nonneg (d : Doc) : 0 ≤ popularityBoost d := by
  unfold popularityBoost
  split
  · split
    · rename_i h; linarith
    · norm_num
  · norm_num

/-- The conversion factor is nonnegative. -/
theorem conversionBoost_nonneg (d : Doc) : 0 ≤ conversionBoost d := by
  unfold conversionBoost
  split
  · split
    · rename_i h; linarith
    · norm_num
  · norm_num

/-- The trending factor is nonnegative. -/
theorem trendingBoost_nonneg (d : Doc) : 0 ≤ trendingBoost d := by
  unfold trendingBoost
  split
  · split
    · rename_i h; linarith
    · norm_num
  · norm_num

/-- The margin factor is nonnegative for nonnegative margin. -/
theorem marginBoost_nonneg (d : Doc) (h : 0 ≤ d.margin_pct) : 0 ≤ marginBoost d := by
  unfold marginBoost; linarith

/-- The promo factor is nonnegative. -/
theorem promoBoost_nonneg (d : Doc) : 0 ≤ promoBoost d := by
  unfold promoBoost; split <;> norm_num

/-- The rating factor is nonnegative for nonnegative average rating. -/
theorem ratingBoost_nonneg (d : Doc) (h : 0 ≤ d.avg_rating) : 0 ≤ ratingBoost d := by
  unfold ratingBoost
  split
  · linarith
  · norm_num

/-- The no-image factor is nonnegative. -/
theorem noImageBoost_nonneg (d : Doc) : 0 ≤ noImageBoost d := by
  unfold noImageBoost; split <;> norm_num

/-- The new-condition factor is nonnegative. -/
theorem conditionNewBoost_nonneg (cp : Option String) (d : Doc) :
    0 ≤ conditionNewBoost cp d := by
  unfold conditionNewBoost conditionWeights
  repeat' split <;> norm_num

/-- The used-condition factor is nonnegative. -/
theorem conditionUsedBoost_nonneg (cp : Option String) (d : Doc) :
    0 ≤ conditionUsedBoost cp d := by
  unfold conditionUsedBoost conditionWeights
  repeat' split <;> norm_num

/-- The bestseller factor is nonnegative. -/
theorem bestsellerBoost_nonneg (d : Doc) : 0 ≤ bestsellerBoost d := by
  unfold bestsellerBoost; split <;> norm_num

/-- The highlighted factor is nonnegative. -/
theorem highlightedBoost_nonneg (d : Doc) : 0 ≤ highlightedBoost d := by
  unfold highlightedBoost; split <;> norm_num

/-- The SKU specificity factor is nonnegative. -/
theorem skuSpecificityBoost_nonneg (b : Bool) (d : Doc) :
    0 ≤ skuSpecificityBoost b d := by
  unfold skuSpecificityBoost
  repeat' split <;> norm_num

/-- The category context factor is nonnegative. -/
theorem categoryContextBoost_nonneg (b1 b2 : Bool) (d : Doc) :
    0 ≤ categoryContextBoost b1 b2 d := by
  unfold categoryContextBoost
  repeat' split <;> norm_num

/-- The 30-day sales signal is monotone in the sales count. -/
theorem sales30dBoost_mono (log1p : Rat → Rat) (hm : Monotone log1p)
    (h0 : log1p 0 = 0) {s t : Rat} (h : s ≤ t) :
    sales30dBoost log1p s ≤ sales30dBoost log1p t := by
  unfold sales30dBoost
  by_cases hs : 0 < s
  · rw [if_pos hs, if_pos (by linarith : 0 < t)]
    have h1 := hm h
    linarith
  · rw [if_neg hs]
    by_cases ht : 0 < t
    · rw [if_pos ht]
      have h1 : log1p 0 ≤ log1p t := hm (le_of_lt ht)
      rw [h0] at h1
      linarith
    · rw [if_neg ht]

/-- C3: for two documents identical in every ranking-relevant field except
`sales_30d`, the one with strictly greater 30-day sales never scores lower
under the multiplicative envelope, for any intent, any monotone `log1p`
with `log1p 0 = 0` (which the painless `Math.log1p` satisfies), any
nonnegative Gaussian decay value, nonnegative base relevance, and documents
with nonnegative margin and rating. -/
theorem rankScore_sales30d_monotone (intent : Option Intent)
    (log1p gaussDecay : Rat → Rat) (base : Rat) (d : Doc) (s t : Rat)
    (hm : Monotone log1p) (h0 : log1p 0 = 0)
    (hbase : 0 ≤ base) (hgauss : 0 ≤ gaussDecay d.created_at)
    (hmargin : 0 ≤ d.margin_pct) (hrating : 0 ≤ d.avg_rating)
    (hst : s < t) :
    rankScore intent log1p gaussDecay base { d with sales_30d := s } ≤
      rankScore intent log1p gaussDecay base { d with sales_30d := t } := by
  have e1 : ∀ x : Rat, inStockBoost { d with sales_30d := x } = inStockBoost d := fun _ => rfl
  have e2 : ∀ x : Rat, backorderBoost { d with sales_30d := x } = backorderBoost d := fun _ => rfl
  have e3 : ∀ x : Rat, outOfStockBoost { d with sales_30d := x } = outOfStockBoost d := fun _ => rfl
  have e4 : ∀ x : Rat, ({ d with sales_30d := x } : Doc).sales_30d = x := fun _ => rfl
  have e5 : ∀ x : Rat, sales365dBoost log1p { d with sales_30d := x } = sales365dBoost log1p d := fun _ => rfl
  have e6 : ∀ x : Rat, revenueBoost log1p { d with sales_30d := x } = revenueBoost log1p d := fun _ => rfl
  have e7 : ∀ x : Rat, popularityBoost { d with sales_30d := x } = popularityBoost d := fun _ => rfl
  have e8 : ∀ x : Rat, conversionBoost { d with sales_30d := x } = conversionBoost d := fun _ => rfl
  have e9 : ∀ x : Rat, trendingBoost { d with sales_30d := x } = trendingBoost d := fun _ => rfl
  have e10 : ∀ x : Rat, marginBoost { d with sales_30d := x } = marginBoost d := fun _ => rfl
  have e11 : ∀ x : Rat, ({ d with sales_30d := x } : Doc).created_at = d.created_at := fun _ => rfl
  have e12 : ∀ x : Rat, promoBoost { d with sales_30d := x } = promoBoost d := fun _ => rfl
  have e13 : ∀ x : Rat, ratingBoost { d with sales_30d := x } = ratingBoost d := fun _ => rfl
  have e14 : ∀ x : Rat, noImageBoost { d with sales_30d := x } = noImageBoost d := fun _ => rfl
  have e15 : ∀ (cp : Option String) (x : Rat),
      conditionNewBoost cp { d with sales_30d := x } = conditionNewBoost cp d := fun _ _ => rfl
  have e16 : ∀ (cp : Option String) (x : Rat),
      conditionUsedBoost cp { d with sales_30d := x } = conditionUsedBoost cp d := fun _ _ => rfl
  have e17 : ∀ x : Rat, bestsellerBoost { d with sales_30d := x } = bestsellerBoost d := fun _ => rfl
  have e18 : ∀ x : Rat, highlightedBoost { d with sales_30d := x } = highlightedBoost d := fun _ => rfl
  have e19 : ∀ (b : Bool) (x : Rat),
      skuSpecificityBoost b { d with sales_30d := x } = skuSpecificityBoost b d := fun _ _ => rfl
  have e20 : ∀ (b1 b2 : Bool) (x : Rat),
      categoryContextBoost b1 b2 { d with sales_30d := x } = categoryContextBoost b1 b2 d := fun _ _ _ => rfl
  unfold rankScore
  simp only [e1, e2, e3, e4, e5, e6, e7, e8, e9, e10, e11, e12, e13, e14,
    e15, e16, e17, e18, e19, e20]
  have key : sales30dBoost log1p s ≤ sales30dBoost log1p t :=
    sales30dBoost_mono log1p hm h0 hst.le
  have n1 := inStockBoost_nonneg d
  have n2 := backorderBoost_nonneg d
  have n3 := outOfStockBoost_nonneg d
  have n5 := sales365dBoost_nonneg log1p hm h0 d
  have n6 := revenueBoost_nonneg log1p hm h0 d
  have n7 := popularityBoost_nonneg d
  have n8 := conversionBoost_nonneg d
  have n9 := trendingBoost_nonneg d
  have n10 := marginBoost_nonneg d hmargin
  have n12 := promoBoost_nonneg d
  have n13 := ratingBoost_nonneg d hrating
  have n14 := noImageBoost_nonneg d
  have n15 := conditionNewBoost_nonneg (intentConditionPref intent) d
  have n16 := conditionUsedBoost_nonneg (intentConditionPref intent) d
  have n17 := bestsellerBoost_nonneg d
  have n18 := highlightedBoost_nonneg d
  have n19 := skuSpecificityBoost_nonneg (intentIsSKU intent) d
  have n20 := categoryContextBoost_nonneg (intentIsBodyQuery intent) (intentWantsAccessories intent) d
  gcongr

/-- Concrete document for the C3 witness. -/
def docW : Doc :=
  { availability := "in_stock", sales_30d := 0, sales_365d := none,
    revenue_30d := none, revenue_365d := none, ga4_popularity_score := none,
    ga4_conversion_score := none, ga4_trending_score := none,
    margin_pct := 0, created_at := 0, is_promo := false, review_count := 0,
    avg_rating := 0, has_image := true, condition := "new",
    is_bestseller := false, is_highlighted := false, name := "X",
    category := "Drony" }

/-- C3 witness: at the identity `log1p` (monotone, vanishing at 0),
constant decay 1, base 1 and a concrete document, raising `sales_30d` from
0 to 1 does not lower the score. -/
theorem rankScore_sales30d_monotone_witness :
    rankScore none (fun x => x) (fun _ => 1) 1 { docW with sales_30d := 0 } ≤
      rankScore none (fun x => x) (fun _ => 1) 1 { docW with sales_30d := 1 } :=
  rankScore_sales30d_monotone none (fun x => x) (fun _ => 1) 1 docW 0 1
    monotone_id rfl (by norm_num) (by norm_num)
    (by show (0 : Rat) ≤ docW.margin_pct; norm_num [docW])
    (by show (0 : Rat) ≤ docW.avg_rating; norm_num [docW])
    (by norm_num)
